import Mathlib

/-!
Verification development for the PTX oven controller.

The C sources are shallowly embedded as pure Lean functions:

* `uint32_t` timestamps and durations become `ℕ`; the C unsigned
  subtraction `a - b` on `uint32_t` is modelled by `wsub`, which reduces
  modulo `2^32` exactly as the machine does.
* `float` quantities (volts, temperatures, thresholds) become `ℚ`; the
  decimal literals of the source (`0.10f`, `0.90f`, ...) are taken at their
  exact decimal value.  This idealises IEEE-754 rounding, which the claims
  under study do not probe.
* The module-static variables of `ptx_oven_control.cpp` become the fields
  of an explicit state record threaded through the functions.
* Hardware and logging side effects (actuator writes, `PTX_LOGF`) carry no
  state that the claims mention and are dropped; the periodic-log timestamp
  is kept because it is module state.
-/

/-- Modulus of `uint32_t` arithmetic. -/
def U32 : ℕ := 4294967296

/-- C `uint32_t` subtraction `a - b` (two's-complement wraparound). -/
def wsub (a b : ℕ) : ℕ := (a % 4294967296 + (4294967296 - b % 4294967296)) % 4294967296

/-- Heating states of `ptx_heating_state_t` (the `.cpp` uses the two extra
states `PURGING` and `LOCKOUT` beyond the three listed in the stale header). -/
inductive ptx_heating_state_t
  | IDLE
  | IGNITING
  | HEATING
  | PURGING
  | LOCKOUT
  deriving DecidableEq, Repr

/-- Configuration record `ptx_oven_config_t`. -/
structure ptx_oven_config_t where
  ignition_duration_ms : ℕ
  periodic_log_ms : ℕ
  sensor_fault_window_ms : ℕ
  auto_resume_delay_ms : ℕ
  vref_min_v : ℚ
  vref_max_v : ℚ
  temp_target_c : ℚ
  temp_delta_c : ℚ
  max_ignition_attempts : ℕ
  purge_time_ms : ℕ
  flame_detect_temp_rise_c : ℚ
  deriving DecidableEq, Repr

/-- The static initial value of `pti_oven_config`. -/
def ptx_oven_default_config : ptx_oven_config_t :=
  { ignition_duration_ms := 5000
    periodic_log_ms := 1000
    sensor_fault_window_ms := 1000
    auto_resume_delay_ms := 3000
    vref_min_v := 4.5
    vref_max_v := 5.5
    temp_target_c := 180
    temp_delta_c := 5
    max_ignition_attempts := 3
    purge_time_ms := 2500
    flame_detect_temp_rise_c := 2 }

/-- Public status snapshot `ptx_oven_status_t`. -/
structure ptx_oven_status_t where
  vref_volts : ℚ
  signal_volts : ℚ
  temperature_c : ℚ
  door_open : Bool
  gas_on : Bool
  igniter_on : Bool
  state : ptx_heating_state_t
  vref_fault : Bool
  signal_fault : Bool
  sensor_fault : Bool
  ignition_attempt : ℕ
  ignition_lockout : Bool
  deriving DecidableEq, Repr

/-- The module-static state of `ptx_oven_control.cpp`: the `pti_status`
snapshot plus the file-scope statics. -/
structure OvenState where
  status : ptx_oven_status_t
  ignition_start_ms : ℕ
  last_log_ms : ℕ
  out_of_range_since_ms : ℕ
  valid_since_ms : ℕ
  ignition_attempt : ℕ
  purge_start_ms : ℕ
  temp_at_ignition_start : ℚ
  deriving DecidableEq, Repr

/-- Instantaneous vref violation: `(vref_mv/1000) < vref_min_v || (vref_mv/1000) > vref_max_v`. -/
def ptx_vref_bad (cfg : ptx_oven_config_t) (vref_mv : ℚ) : Bool :=
  decide (vref_mv / 1000 < cfg.vref_min_v) || decide (vref_mv / 1000 > cfg.vref_max_v)

/-- Instantaneous signal violation: outside `[0.10*vref_mv, 0.90*vref_mv]`. -/
def ptx_signal_bad (vref_mv signal_mv : ℚ) : Bool :=
  decide (signal_mv < (0.10 : ℚ) * vref_mv) || decide (signal_mv > (0.90 : ℚ) * vref_mv)

/-- Aggregate instantaneous out-of-range bit `vref_bad || signal_bad`. -/
def ptx_out_of_range (cfg : ptx_oven_config_t) (vref_mv signal_mv : ℚ) : Bool :=
  ptx_vref_bad cfg vref_mv || ptx_signal_bad vref_mv signal_mv

/-- `ptx_eval_sensor_faults_with_timing`: updates the instantaneous
readings/fault bits and runs the debounce/latch/auto-resume timing logic. -/
def ptx_eval_sensor_faults_with_timing (cfg : ptx_oven_config_t) (s : OvenState)
    (now_ms : ℕ) (vref_mv signal_mv : ℚ) : OvenState :=
  let vref_bad := ptx_vref_bad cfg vref_mv
  let signal_bad := ptx_signal_bad vref_mv signal_mv
  let st0 := { s.status with
                vref_volts := vref_mv / 1000
                signal_volts := signal_mv / 1000
                vref_fault := vref_bad
                signal_fault := signal_bad }
  if vref_bad || signal_bad then
    let since := if s.out_of_range_since_ms = 0 then now_ms else s.out_of_range_since_ms
    let latch := !st0.sensor_fault && decide (wsub now_ms since > cfg.sensor_fault_window_ms)
    { s with
        status := { st0 with sensor_fault := st0.sensor_fault || latch }
        out_of_range_since_ms := since
        valid_since_ms := 0 }
  else
    if st0.sensor_fault then
      let vsince := if s.valid_since_ms = 0 then now_ms else s.valid_since_ms
      if wsub now_ms vsince ≥ cfg.auto_resume_delay_ms then
        { s with
            status := { st0 with sensor_fault := false }
            out_of_range_since_ms := 0
            valid_since_ms := 0 }
      else
        { s with
            status := st0
            out_of_range_since_ms := 0
            valid_since_ms := vsince }
    else
      { s with
          status := st0
          out_of_range_since_ms := 0
          valid_since_ms := 0 }

/-- `ptx_compute_temperature`: linear map, clamped at `-10` and `300`. -/
def ptx_compute_temperature (vref_mv signal_mv : ℚ) : ℚ :=
  let low := (0.10 : ℚ) * vref_mv
  let high := (0.90 : ℚ) * vref_mv
  if signal_mv ≤ low then -10
  else if signal_mv ≥ high then 300
  else -10 + ((signal_mv - low) / ((0.80 : ℚ) * vref_mv)) * 310

/-- `ptx_update_heating`.  The compile-time flag `PTX_FLAME_DETECT_ENABLED`
is passed as the Boolean `flame` (the shipped default is `false`). -/
def ptx_update_heating (flame : Bool) (cfg : ptx_oven_config_t) (s : OvenState)
    (now_ms : ℕ) : OvenState :=
  if s.status.door_open || s.status.sensor_fault then
    { s with
        status := { s.status with
                      gas_on := false
                      igniter_on := false
                      state := .IDLE }
        ignition_attempt := 0 }
  else
    let temp_on := cfg.temp_target_c - cfg.temp_delta_c
    let temp_off := cfg.temp_target_c + cfg.temp_delta_c
    match s.status.state with
    | .IDLE =>
        if s.status.temperature_c ≤ temp_on then
          { s with
              status := { s.status with
                            gas_on := true
                            igniter_on := true
                            state := .IGNITING }
              ignition_attempt := s.ignition_attempt + 1
              ignition_start_ms := now_ms
              temp_at_ignition_start := s.status.temperature_c }
        else s
    | .IGNITING =>
        if wsub now_ms s.ignition_start_ms ≥ cfg.ignition_duration_ms then
          let temp_rise := s.status.temperature_c - s.temp_at_ignition_start
          if flame then
            if temp_rise > cfg.flame_detect_temp_rise_c then
              { s with
                  status := { s.status with igniter_on := false, state := .HEATING }
                  ignition_attempt := 0 }
            else if s.ignition_attempt ≥ cfg.max_ignition_attempts then
              { s with
                  status := { s.status with
                                gas_on := false
                                igniter_on := false
                                state := .LOCKOUT
                                ignition_lockout := true } }
            else
              { s with
                  status := { s.status with
                                gas_on := false
                                igniter_on := false
                                state := .PURGING }
                  purge_start_ms := now_ms }
          else
            { s with
                status := { s.status with igniter_on := false, state := .HEATING }
                ignition_attempt := 0 }
        else s
    | .HEATING =>
        if s.status.temperature_c ≥ temp_off then
          { s with
              status := { s.status with
                            gas_on := false
                            igniter_on := false
                            state := .IDLE }
              ignition_attempt := 0 }
        else s
    | .PURGING =>
        if wsub now_ms s.purge_start_ms ≥ cfg.purge_time_ms then
          { s with status := { s.status with state := .IDLE } }
        else s
    | .LOCKOUT =>
        { s with
            status := { s.status with
                          gas_on := false
                          igniter_on := false
                          ignition_lockout := true } }

/-- `ptx_read_door_open`: reads the door flag out of the status snapshot. -/
def ptx_read_door_open (s : OvenState) : Bool := s.status.door_open

/-- `ptx_oven_run_log`: only its `pti_last_log_ms` state effect is modelled. -/
def ptx_oven_run_log (cfg : ptx_oven_config_t) (s : OvenState) (now_ms : ℕ) : OvenState :=
  if wsub now_ms s.last_log_ms < cfg.periodic_log_ms then s
  else { s with last_log_ms := now_ms }

/-- One scan: `ptx_oven_control_update`.  The filtered millivolt readings
produced by `ptx_sensor_filter_read_and_update` (already cast to `float` in
the source) enter as the parameters `vref_mv`/`signal_mv`; the sensor-filter
state itself is modelled separately. -/
def ptx_oven_control_update (flame : Bool) (cfg : ptx_oven_config_t) (s : OvenState)
    (now : ℕ) (vref_mv signal_mv : ℚ) : OvenState :=
  let s1 := ptx_eval_sensor_faults_with_timing cfg s now vref_mv signal_mv
  let s2 := { s1 with status := { s1.status with door_open := ptx_read_door_open s1 } }
  let s3 := { s2 with status := { s2.status with
                temperature_c := ptx_compute_temperature vref_mv signal_mv } }
  let s4 := ptx_update_heating flame cfg s3 now
  let s5 := ptx_oven_run_log cfg s4 now
  { s5 with status := { s5.status with ignition_attempt := s5.ignition_attempt } }

/-- `ptx_oven_control_init`: resets the status snapshot and most statics;
note that the source does NOT reset `pti_out_of_range_since_ms` and
`pti_valid_since_ms`, so those fields are carried over from the prior state. -/
def ptx_oven_control_init (s : OvenState) : OvenState :=
  { status := { vref_volts := 0, signal_volts := 0, temperature_c := -10,
                door_open := false, gas_on := false, igniter_on := false,
                state := .IDLE, vref_fault := false, signal_fault := false,
                sensor_fault := false, ignition_attempt := 0,
                ignition_lockout := false }
    ignition_start_ms := 0
    last_log_ms := 0
    out_of_range_since_ms := s.out_of_range_since_ms
    valid_since_ms := s.valid_since_ms
    ignition_attempt := 0
    purge_start_ms := 0
    temp_at_ignition_start := 0 }

/-- The zero static initialisation of the module before any call runs. -/
def ptx_boot_state : OvenState :=
  { status := { vref_volts := 0, signal_volts := 0, temperature_c := 0,
                door_open := false, gas_on := false, igniter_on := false,
                state := .IDLE, vref_fault := false, signal_fault := false,
                sensor_fault := false, ignition_attempt := 0,
                ignition_lockout := false }
    ignition_start_ms := 0
    last_log_ms := 0
    out_of_range_since_ms := 0
    valid_since_ms := 0
    ignition_attempt := 0
    purge_start_ms := 0
    temp_at_ignition_start := 0 }

/-- `ptx_oven_set_door_state`. -/
def ptx_oven_set_door_state (s : OvenState) (openFlag : Bool) : OvenState :=
  { s with status := { s.status with door_open := openFlag } }

/-- `ptx_oven_reset_ignition_lockout`. -/
def ptx_oven_reset_ignition_lockout (s : OvenState) : OvenState :=
  if s.status.state = .LOCKOUT then
    { s with
        status := { s.status with
                      state := .IDLE
                      ignition_lockout := false
                      ignition_attempt := 0 }
        ignition_attempt := 0 }
  else s

/-- Runs a list of scans: each item is `(now_ms, vref_mv, signal_mv)`. -/
def ptx_scan_run (flame : Bool) (cfg : ptx_oven_config_t) :
    OvenState → List (ℕ × ℚ × ℚ) → OvenState
  | s, [] => s
  | s, p :: rest =>
      ptx_scan_run flame cfg (ptx_oven_control_update flame cfg s p.1 p.2.1 p.2.2) rest

/-- `ptx_oven_set_config`: a NULL pointer is modelled as `none`. -/
def ptx_oven_set_config (config : Option ptx_oven_config_t)
    (cur : ptx_oven_config_t) : ptx_oven_config_t :=
  match config with
  | none => cur
  | some c => c

/-- `ptx_oven_set_ignition_duration_ms`. -/
def ptx_oven_set_ignition_duration_ms (duration_ms : ℕ)
    (c : ptx_oven_config_t) : ptx_oven_config_t :=
  if 1000 ≤ duration_ms ∧ duration_ms ≤ 30000 then
    { c with ignition_duration_ms := duration_ms }
  else c

/-- `ptx_oven_set_periodic_log_ms`. -/
def ptx_oven_set_periodic_log_ms (interval_ms : ℕ)
    (c : ptx_oven_config_t) : ptx_oven_config_t :=
  if 100 ≤ interval_ms ∧ interval_ms ≤ 60000 then
    { c with periodic_log_ms := interval_ms }
  else c

/-- `ptx_oven_set_sensor_fault_window_ms`. -/
def ptx_oven_set_sensor_fault_window_ms (window_ms : ℕ)
    (c : ptx_oven_config_t) : ptx_oven_config_t :=
  if 100 ≤ window_ms ∧ window_ms ≤ 10000 then
    { c with sensor_fault_window_ms := window_ms }
  else c

/-- `ptx_oven_set_auto_resume_delay_ms`. -/
def ptx_oven_set_auto_resume_delay_ms (delay_ms : ℕ)
    (c : ptx_oven_config_t) : ptx_oven_config_t :=
  if 1000 ≤ delay_ms ∧ delay_ms ≤ 30000 then
    { c with auto_resume_delay_ms := delay_ms }
  else c

/-- `ptx_oven_set_vref_range_v`. -/
def ptx_oven_set_vref_range_v (min_v max_v : ℚ)
    (c : ptx_oven_config_t) : ptx_oven_config_t :=
  if 0 ≤ min_v ∧ min_v ≤ 10 ∧ 0 ≤ max_v ∧ max_v ≤ 10 ∧ min_v < max_v then
    { c with vref_min_v := min_v, vref_max_v := max_v }
  else c

/-- `ptx_oven_set_temp_target_c`. -/
def ptx_oven_set_temp_target_c (target_c : ℚ)
    (c : ptx_oven_config_t) : ptx_oven_config_t :=
  if 0 ≤ target_c ∧ target_c ≤ 300 then
    { c with temp_target_c := target_c }
  else c

/-- `ptx_oven_set_temp_delta_c`. -/
def ptx_oven_set_temp_delta_c (delta_c : ℚ)
    (c : ptx_oven_config_t) : ptx_oven_config_t :=
  if (0.1 : ℚ) ≤ delta_c ∧ delta_c ≤ 50 then
    { c with temp_delta_c := delta_c }
  else c

/-- `ptx_oven_set_max_ignition_attempts` (`uint8_t` argument). -/
def ptx_oven_set_max_ignition_attempts (attempts : ℕ)
    (c : ptx_oven_config_t) : ptx_oven_config_t :=
  if 1 ≤ attempts ∧ attempts ≤ 10 then
    { c with max_ignition_attempts := attempts }
  else c

/-- `ptx_oven_set_purge_time_ms`. -/
def ptx_oven_set_purge_time_ms (purge_ms : ℕ)
    (c : ptx_oven_config_t) : ptx_oven_config_t :=
  if 1000 ≤ purge_ms ∧ purge_ms ≤ 10000 then
    { c with purge_time_ms := purge_ms }
  else c

/-- `ptx_oven_set_flame_detect_temp_rise_c`. -/
def ptx_oven_set_flame_detect_temp_rise_c (temp_rise_c : ℚ)
    (c : ptx_oven_config_t) : ptx_oven_config_t :=
  if 0 < temp_rise_c ∧ temp_rise_c ≤ 50 then
    { c with flame_detect_temp_rise_c := temp_rise_c }
  else c

/-- `ptx_sensor_reading_t`: readings are `uint16_t` millivolts, kept as `ℕ`. -/
structure ptx_sensor_reading_t where
  vref_mv : ℕ
  signal_mv : ℕ
  valid : Bool
  deriving DecidableEq, Repr

/-- The static filter state `pti_filter_state` of `ptx_sensor_filter.cpp`.
The two history arrays have fixed capacity `PTX_FILTER_MAX_WINDOW = 10`. -/
structure pti_filter_state_t where
  window_size : ℕ
  vref_history : List ℕ
  signal_history : List ℕ
  history_count : ℕ
  history_index : ℕ
  deriving DecidableEq, Repr

/-- One adjacent-compare-and-swap sweep carrying the current element: the
body of the inner `j` loop of `compute_median`'s bubble sort (`sorted[j] >
sorted[j+1]` swaps, so equal elements are not exchanged). -/
def bubbleCarry (a : ℕ) : List ℕ → List ℕ
  | [] => [a]
  | b :: t => if b < a then b :: bubbleCarry a t else a :: bubbleCarry b t

/-- One full inner-loop pass of the bubble sort over a list. -/
def bubblePass : List ℕ → List ℕ
  | [] => []
  | a :: t => bubbleCarry a t

/-- The outer `i` loop of `compute_median`'s bubble sort.  At outer
iteration `i` the inner loop runs `j` over `[0, count-i-1)`, i.e. it sweeps
the first `count - i` positions only; with the countdown parameter
`k = count - 1 - i` that sweep covers the first `k + 1` positions. -/
def bubbleSortLoop : ℕ → List ℕ → List ℕ
  | 0, l => l
  | k + 1, l => bubbleSortLoop k (bubblePass (l.take (k + 2)) ++ l.drop (k + 2))

/-- `compute_median`: bubble sorts the first `count` buffer entries and
returns the middle value; for even `count` the two central entries are
averaged with C integer (truncating) division. -/
def compute_median (buffer : List ℕ) (count : ℕ) : ℕ :=
  let sorted := bubbleSortLoop (count - 1) (buffer.take count)
  if count % 2 = 0 then
    (sorted.getD (count / 2 - 1) 0 + sorted.getD (count / 2) 0) / 2
  else
    sorted.getD (count / 2) 0

/-- `ptx_sensor_filter_reset`. -/
def ptx_sensor_filter_reset (s : pti_filter_state_t) : pti_filter_state_t :=
  { s with
      history_count := 0
      history_index := 0
      vref_history := List.replicate 10 0
      signal_history := List.replicate 10 0 }

/-- `ptx_sensor_filter_init`: clamps the window size to `[3, 10]` (first the
upper bound, then the lower) and resets the history. -/
def ptx_sensor_filter_init (window_size : ℕ) : pti_filter_state_t :=
  let w0 := if window_size > 10 then 10 else window_size
  let w := if w0 < 3 then 3 else w0
  ptx_sensor_filter_reset
    { window_size := w
      vref_history := List.replicate 10 0
      signal_history := List.replicate 10 0
      history_count := 0
      history_index := 0 }

/-- `ptx_sensor_filter_update`: writes the raw pair at the circular index,
advances the index modulo the window size, saturates the count, and returns
the new state together with the reading handed back to the caller. -/
def ptx_sensor_filter_update (s : pti_filter_state_t)
    (raw_vref_mv raw_signal_mv : ℕ) : pti_filter_state_t × ptx_sensor_reading_t :=
  let vh := s.vref_history.set s.history_index raw_vref_mv
  let sh := s.signal_history.set s.history_index raw_signal_mv
  let idx := (s.history_index + 1) % s.window_size
  let cnt := if s.history_count < s.window_size then s.history_count + 1
             else s.history_count
  let s1 := { s with
                vref_history := vh
                signal_history := sh
                history_index := idx
                history_count := cnt }
  if cnt ≥ s.window_size then
    (s1, { vref_mv := compute_median vh s.window_size
           signal_mv := compute_median sh s.window_size
           valid := true })
  else
    (s1, { vref_mv := raw_vref_mv, signal_mv := raw_signal_mv, valid := false })

/-- Feeds a list of raw `(vref_mv, signal_mv)` pairs through the filter. -/
def ptx_filter_run : pti_filter_state_t → List (ℕ × ℕ) → pti_filter_state_t
  | s, [] => s
  | s, p :: rest => ptx_filter_run (ptx_sensor_filter_update s p.1 p.2).1 rest

/-- The raw vref channel of a sample list. -/
def vsamples (xs : List (ℕ × ℕ)) : List ℕ := xs.map Prod.fst

/-- The raw signal channel of a sample list. -/
def ssamples (xs : List (ℕ × ℕ)) : List ℕ := xs.map Prod.snd

/-- Integer median over a window, written against the canonical sorted
order: odd length takes the single central order statistic, even length the
truncating integer average of the two central order statistics. -/
def medianOfWindow (l : List ℕ) : ℕ :=
  let srt := List.insertionSort (· ≤ ·) l
  if l.length % 2 = 0 then
    (srt.getD (l.length / 2 - 1) 0 + srt.getD (l.length / 2) 0) / 2
  else
    srt.getD (l.length / 2) 0

/-- Modelled from the spec: the exact statistical median over `ℚ`, as the
spec sentence reads it ("even window size: average of the two central order
statistics; odd: the single central order statistic").  Used only to compare
the program's integer reading against the claim's wording. -/
def medianSpecQ (l : List ℕ) : ℚ :=
  let srt := List.insertionSort (· ≤ ·) l
  if l.length % 2 = 0 then
    ((srt.getD (l.length / 2 - 1) 0 : ℚ) + (srt.getD (l.length / 2) 0 : ℚ)) / 2
  else
    (srt.getD (l.length / 2) 0 : ℚ)

/-- The states reachable through the public entry points: boot-time static
zero state, `ptx_oven_control_init`, per-scan `ptx_oven_control_update`
(under an arbitrary configuration and flame-detect policy each scan),
`ptx_oven_set_door_state`, and `ptx_oven_reset_ignition_lockout`. -/
inductive PtxReachable : OvenState → Prop
  | boot : PtxReachable ptx_boot_state
  | start : ∀ s, PtxReachable s → PtxReachable (ptx_oven_control_init s)
  | scan : ∀ s flame cfg now vref_mv signal_mv, PtxReachable s →
      PtxReachable (ptx_oven_control_update flame cfg s now vref_mv signal_mv)
  | door : ∀ s b, PtxReachable s → PtxReachable (ptx_oven_set_door_state s b)
  | reset : ∀ s, PtxReachable s → PtxReachable (ptx_oven_reset_ignition_lockout s)

/-- Output interlock as far as it really is invariant: outputs only in
`IGNITING`/`HEATING` (hence never in `LOCKOUT`) and never with a latched
`sensor_fault`. -/
def OutputsInv (s : OvenState) : Prop :=
  (s.status.gas_on = true ∨ s.status.igniter_on = true) →
    ((s.status.state = .IGNITING ∨ s.status.state = .HEATING) ∧
      s.status.sensor_fault = false)

/-- The state-only half of `OutputsInv`. -/
def OutputsStateInv (s : OvenState) : Prop :=
  (s.status.gas_on = true ∨ s.status.igniter_on = true) →
    (s.status.state = .IGNITING ∨ s.status.state = .HEATING)

/-- Per-channel circular-buffer contents after feeding the raw list
`raws`: while warming up, the prefix of the history is exactly `raws`; once
full, the first `window` entries are the last `window` raws rotated by the
write position. -/
def FilterChannelInv (W : ℕ) (raws : List ℕ) (hist : List ℕ) : Prop :=
  (raws.length < W → hist.take raws.length = raws) ∧
  (W ≤ raws.length →
    hist.take W = (raws.drop (raws.length - W)).rotate (W - raws.length % W))

/-- Full filter-state invariant after feeding the sample list `xs`. -/
def FilterInv (W : ℕ) (xs : List (ℕ × ℕ)) (s : pti_filter_state_t) : Prop :=
  s.window_size = W ∧
  s.vref_history.length = 10 ∧
  s.signal_history.length = 10 ∧
  s.history_index = xs.length % W ∧
  s.history_count = min xs.length W ∧
  FilterChannelInv W (vsamples xs) s.vref_history ∧
  FilterChannelInv W (ssamples xs) s.signal_history

/-- The state handed to `ptx_update_heating` inside one scan: fault
evaluation, the door re-read, and the temperature computation have already
run.  (Named so that scan-level proofs can decompose the update.) -/
def ptx_scan_mid (cfg : ptx_oven_config_t) (s : OvenState) (now : ℕ) (v g : ℚ) : OvenState :=
  let s1 := ptx_eval_sensor_faults_with_timing cfg s now v g
  { s1 with status := { s1.status with
      door_open := s1.status.door_open
      temperature_c := ptx_compute_temperature v g } }

/-- Concrete scan trace (default configuration, flame detection enabled,
constant in-range readings that keep the computed temperature at -10 so no
temperature rise is ever observed): three failed ignition attempts with
their purges, ending on the scan that enters lockout. -/
def ptx_lockout_demo_trace : List (ℕ × ℚ × ℚ) :=
  [(0, 5000, 500), (5000, 5000, 500), (7500, 5000, 500), (7501, 5000, 500),
   (12501, 5000, 500), (15001, 5000, 500), (15002, 5000, 500), (20002, 5000, 500)]

/-- A concrete igniting state about to fail its final ignition attempt
(attempt counter at the default `max_ignition_attempts`). -/
def ptx_demo_igniting_state : OvenState :=
  { status := { vref_volts := 5, signal_volts := 0.5, temperature_c := -10,
                door_open := false, gas_on := true, igniter_on := true,
                state := .IGNITING, vref_fault := false, signal_fault := false,
                sensor_fault := false, ignition_attempt := 3,
                ignition_lockout := false }
    ignition_start_ms := 0
    last_log_ms := 0
    out_of_range_since_ms := 0
    valid_since_ms := 0
    ignition_attempt := 3
    purge_start_ms := 0
    temp_at_ignition_start := -10 }

/-- A concrete lockout state (as produced by exhausting the attempts). -/
def ptx_demo_lockout_state : OvenState :=
  { status := { vref_volts := 5, signal_volts := 0.5, temperature_c := -10,
                door_open := false, gas_on := false, igniter_on := false,
                state := .LOCKOUT, vref_fault := false, signal_fault := false,
                sensor_fault := false, ignition_attempt := 3,
                ignition_lockout := true }
    ignition_start_ms := 0
    last_log_ms := 0
    out_of_range_since_ms := 0
    valid_since_ms := 0
    ignition_attempt := 3
    purge_start_ms := 0
    temp_at_ignition_start := -10 }

/-- A concrete state with a latched sensor fault and no valid run being
tracked (as left behind by an out-of-range run that latched). -/
def ptx_demo_latched_state : OvenState :=
  { status := { vref_volts := 0, signal_volts := 0, temperature_c := -10,
                door_open := false, gas_on := false, igniter_on := false,
                state := .IDLE, vref_fault := true, signal_fault := true,
                sensor_fault := true, ignition_attempt := 0,
                ignition_lockout := false }
    ignition_start_ms := 0
    last_log_ms := 0
    out_of_range_since_ms := 0
    valid_since_ms := 0
    ignition_attempt := 0
    purge_start_ms := 0
    temp_at_ignition_start := 0 }

theorem wsub_eq_sub {a b : ℕ} (h1 : b ≤ a) (h2 : a < b + 4294967296) :
    wsub a b = a - b := by
  unfold wsub
  omega

theorem wsub_self (a : ℕ) : wsub a a = 0 := by
  unfold wsub
  omega

theorem ptx_update_heating_preserves (flame : Bool) (cfg : ptx_oven_config_t)
    (s : OvenState) (now : ℕ) :
    (ptx_update_heating flame cfg s now).status.sensor_fault = s.status.sensor_fault ∧
    (ptx_update_heating flame cfg s now).status.door_open = s.status.door_open ∧
    (ptx_update_heating flame cfg s now).status.vref_fault = s.status.vref_fault ∧
    (ptx_update_heating flame cfg s now).status.signal_fault = s.status.signal_fault ∧
    (ptx_update_heating flame cfg s now).status.temperature_c = s.status.temperature_c ∧
    (ptx_update_heating flame cfg s now).out_of_range_since_ms = s.out_of_range_since_ms ∧
    (ptx_update_heating flame cfg s now).valid_since_ms = s.valid_since_ms ∧
    (ptx_update_heating flame cfg s now).last_log_ms = s.last_log_ms := by
  simp only [ptx_update_heating]
  rcases hst : s.status.state <;> simp only [hst] <;> split_ifs <;> simp_all

theorem ptx_oven_run_log_preserves (cfg : ptx_oven_config_t) (s : OvenState)
    (now : ℕ) :
    (ptx_oven_run_log cfg s now).status = s.status ∧
    (ptx_oven_run_log cfg s now).out_of_range_since_ms = s.out_of_range_since_ms ∧
    (ptx_oven_run_log cfg s now).valid_since_ms = s.valid_since_ms ∧
    (ptx_oven_run_log cfg s now).ignition_start_ms = s.ignition_start_ms ∧
    (ptx_oven_run_log cfg s now).purge_start_ms = s.purge_start_ms ∧
    (ptx_oven_run_log cfg s now).ignition_attempt = s.ignition_attempt ∧
    (ptx_oven_run_log cfg s now).temp_at_ignition_start = s.temp_at_ignition_start := by
  simp only [ptx_oven_run_log]
  split_ifs <;> simp

theorem ptx_eval_faults_preserves (cfg : ptx_oven_config_t) (s : OvenState)
    (now : ℕ) (v g : ℚ) :
    (ptx_eval_sensor_faults_with_timing cfg s now v g).status.gas_on = s.status.gas_on ∧
    (ptx_eval_sensor_faults_with_timing cfg s now v g).status.igniter_on = s.status.igniter_on ∧
    (ptx_eval_sensor_faults_with_timing cfg s now v g).status.state = s.status.state ∧
    (ptx_eval_sensor_faults_with_timing cfg s now v g).status.door_open = s.status.door_open ∧
    (ptx_eval_sensor_faults_with_timing cfg s now v g).status.ignition_lockout = s.status.ignition_lockout ∧
    (ptx_eval_sensor_faults_with_timing cfg s now v g).status.temperature_c = s.status.temperature_c ∧
    (ptx_eval_sensor_faults_with_timing cfg s now v g).ignition_start_ms = s.ignition_start_ms ∧
    (ptx_eval_sensor_faults_with_timing cfg s now v g).purge_start_ms = s.purge_start_ms ∧
    (ptx_eval_sensor_faults_with_timing cfg s now v g).ignition_attempt = s.ignition_attempt ∧
    (ptx_eval_sensor_faults_with_timing cfg s now v g).temp_at_ignition_start = s.temp_at_ignition_start ∧
    (ptx_eval_sensor_faults_with_timing cfg s now v g).last_log_ms = s.last_log_ms := by
  simp only [ptx_eval_sensor_faults_with_timing]
  split_ifs <;> simp

/-- Claim C1: for every heating state and every scan, if `door_open` or the
latched `sensor_fault` is true when the heating step runs, then after that
one step `gas_on = false`, `igniter_on = false`, `state = IDLE`, and the
ignition attempt counter is reset to 0.  The override is unconditional in
the state (the conclusion holds for every `s.status.state`, including
`PURGING` and `LOCKOUT`), i.e. it pre-empts all state-specific logic. -/
theorem claim_C1_override_supremacy (flame : Bool) (cfg : ptx_oven_config_t)
    (s : OvenState) (now : ℕ)
    (h : s.status.door_open = true ∨ s.status.sensor_fault = true) :
    (ptx_update_heating flame cfg s now).status.gas_on = false ∧
    (ptx_update_heating flame cfg s now).status.igniter_on = false ∧
    (ptx_update_heating flame cfg s now).status.state = .IDLE ∧
    (ptx_update_heating flame cfg s now).ignition_attempt = 0 := by
  simp only [ptx_update_heating]
  rcases h with h | h <;> simp [h]

/-- Claim C1 witness: the override fires from a concrete reachable state
with the door just opened while igniting. -/
theorem claim_C1_override_supremacy_witness :
    (ptx_oven_set_door_state
        (ptx_oven_control_update false ptx_oven_default_config
          (ptx_oven_control_init ptx_boot_state) 0 5000 500) true).status.door_open = true ∧
    (ptx_update_heating false ptx_oven_default_config
        (ptx_oven_set_door_state
          (ptx_oven_control_update false ptx_oven_default_config
            (ptx_oven_control_init ptx_boot_state) 0 5000 500) true) 100).status.gas_on = false ∧
    (ptx_update_heating false ptx_oven_default_config
        (ptx_oven_set_door_state
          (ptx_oven_control_update false ptx_oven_default_config
            (ptx_oven_control_init ptx_boot_state) 0 5000 500) true) 100).status.igniter_on = false ∧
    (ptx_update_heating false ptx_oven_default_config
        (ptx_oven_set_door_state
          (ptx_oven_control_update false ptx_oven_default_config
            (ptx_oven_control_init ptx_boot_state) 0 5000 500) true) 100).status.state = .IDLE ∧
    (ptx_update_heating false ptx_oven_default_config
        (ptx_oven_set_door_state
          (ptx_oven_control_update false ptx_oven_default_config
            (ptx_oven_control_init ptx_boot_state) 0 5000 500) true) 100).ignition_attempt = 0 :=
  ⟨by norm_num [ptx_oven_set_door_state, ptx_oven_control_update, ptx_eval_sensor_faults_with_timing,
      ptx_update_heating, ptx_oven_run_log, ptx_oven_control_init, ptx_boot_state, ptx_vref_bad,
      ptx_signal_bad, ptx_compute_temperature, ptx_read_door_open, ptx_oven_default_config, wsub],
   claim_C1_override_supremacy false ptx_oven_default_config _ 100 (Or.inl (by norm_num [ptx_oven_set_door_state, ptx_oven_control_update, ptx_eval_sensor_faults_with_timing,
      ptx_update_heating, ptx_oven_run_log, ptx_oven_control_init, ptx_boot_state, ptx_vref_bad,
      ptx_signal_bad, ptx_compute_temperature, ptx_read_door_open, ptx_oven_default_config, wsub]))⟩

/-- Claim C10 counterexample: at `vref_mv = 0`, `signal_mv = 0` (a pair of
non-negative inputs with `signal_mv >= 0.90 * vref_mv`), the function
returns `-10`, not `300` as the claim requires: the low clamp is tested
first and both clamp conditions hold simultaneously when `vref_mv = 0`. -/
theorem claim_C10_counterexample :
    (0 : ℚ) ≤ (0 : ℚ) ∧ (0.90 : ℚ) * 0 ≤ (0 : ℚ) ∧
    ptx_compute_temperature 0 0 = -10 ∧ ptx_compute_temperature 0 0 ≠ 300 := by
  norm_num [ptx_compute_temperature]

/-- Claim C10 (amended): `ptx_compute_temperature` is total, its value
always lies in `[-10, 300]`, it returns exactly `-10` whenever
`signal_mv ≤ 0.10 * vref_mv`, it returns exactly `300` whenever
`signal_mv ≥ 0.90 * vref_mv` *provided `vref_mv > 0`* (for `vref_mv = 0`
the low clamp wins and every non-negative signal yields `-10`), and the
interpolation branch is reached only when `signal_mv` lies strictly between
the clamps, which forces `vref_mv > 0` and hence a non-zero divisor
`0.80 * vref_mv`. -/
theorem claim_C10_amended (vref_mv signal_mv : ℚ)
    (hv : 0 ≤ vref_mv) (hs : 0 ≤ signal_mv) :
    (-10 ≤ ptx_compute_temperature vref_mv signal_mv ∧
      ptx_compute_temperature vref_mv signal_mv ≤ 300) ∧
    (signal_mv ≤ (0.10 : ℚ) * vref_mv →
      ptx_compute_temperature vref_mv signal_mv = -10) ∧
    (0 < vref_mv → (0.90 : ℚ) * vref_mv ≤ signal_mv →
      ptx_compute_temperature vref_mv signal_mv = 300) ∧
    ((0.10 : ℚ) * vref_mv < signal_mv → signal_mv < (0.90 : ℚ) * vref_mv →
      0 < vref_mv) := by
  simp only [ptx_compute_temperature]
  split_ifs with h1 h2
  · refine ⟨⟨le_refl _, by norm_num⟩, fun _ => rfl, fun hv0 h9 => ?_, fun hlt => ?_⟩
    · exfalso
      nlinarith
    · exact absurd hlt (not_lt.mpr h1)
  · refine ⟨⟨by norm_num, le_refl _⟩, fun hle => absurd hle h1, fun _ _ => rfl,
      fun _ hlt2 => absurd h2 (not_le.mpr hlt2)⟩
  · push_neg at h1 h2
    have hv8 : 0 < (0.80 : ℚ) * vref_mv := by nlinarith
    have hq0 : 0 ≤ (signal_mv - (0.10 : ℚ) * vref_mv) / ((0.80 : ℚ) * vref_mv) :=
      div_nonneg (by linarith) (le_of_lt hv8)
    have hq1 : (signal_mv - (0.10 : ℚ) * vref_mv) / ((0.80 : ℚ) * vref_mv) ≤ 1 := by
      rw [div_le_one hv8]
      linarith
    refine ⟨⟨by nlinarith, by nlinarith⟩, fun hle => absurd hle (not_le.mpr h1),
      fun _ h9 => absurd h2 (not_lt.mpr h9), fun _ _ => by nlinarith⟩

/-- Claim C10 amended witness: a concrete interior point, `vref = 5000 mV`,
`signal = 2500 mV`. -/
theorem claim_C10_amended_witness :
    ((-10 ≤ ptx_compute_temperature 5000 2500 ∧
      ptx_compute_temperature 5000 2500 ≤ 300) ∧
    ((2500 : ℚ) ≤ (0.10 : ℚ) * 5000 →
      ptx_compute_temperature 5000 2500 = -10) ∧
    ((0 : ℚ) < 5000 → (0.90 : ℚ) * 5000 ≤ (2500 : ℚ) →
      ptx_compute_temperature 5000 2500 = 300) ∧
    ((0.10 : ℚ) * 5000 < (2500 : ℚ) → (2500 : ℚ) < (0.90 : ℚ) * 5000 →
      (0 : ℚ) < 5000)) :=
  claim_C10_amended 5000 2500 (by norm_num) (by norm_num)

/-- Claim C8: each individual configuration setter stores the value exactly
when it lies inside the setter's fixed validation range; any value outside
leaves the stored configuration completely unchanged (and the setters
return nothing, so no error can be surfaced). -/
theorem claim_C8_setter_validation (c : ptx_oven_config_t) (d lg w rs att pg : ℕ)
    (mn mx tg dl fr : ℚ) :
    ((1000 ≤ d ∧ d ≤ 30000 →
        ptx_oven_set_ignition_duration_ms d c = { c with ignition_duration_ms := d }) ∧
      (¬(1000 ≤ d ∧ d ≤ 30000) → ptx_oven_set_ignition_duration_ms d c = c)) ∧
    ((100 ≤ lg ∧ lg ≤ 60000 →
        ptx_oven_set_periodic_log_ms lg c = { c with periodic_log_ms := lg }) ∧
      (¬(100 ≤ lg ∧ lg ≤ 60000) → ptx_oven_set_periodic_log_ms lg c = c)) ∧
    ((100 ≤ w ∧ w ≤ 10000 →
        ptx_oven_set_sensor_fault_window_ms w c = { c with sensor_fault_window_ms := w }) ∧
      (¬(100 ≤ w ∧ w ≤ 10000) → ptx_oven_set_sensor_fault_window_ms w c = c)) ∧
    ((1000 ≤ rs ∧ rs ≤ 30000 →
        ptx_oven_set_auto_resume_delay_ms rs c = { c with auto_resume_delay_ms := rs }) ∧
      (¬(1000 ≤ rs ∧ rs ≤ 30000) → ptx_oven_set_auto_resume_delay_ms rs c = c)) ∧
    ((0 ≤ mn ∧ mn ≤ 10 ∧ 0 ≤ mx ∧ mx ≤ 10 ∧ mn < mx →
        ptx_oven_set_vref_range_v mn mx c = { c with vref_min_v := mn, vref_max_v := mx }) ∧
      (¬(0 ≤ mn ∧ mn ≤ 10 ∧ 0 ≤ mx ∧ mx ≤ 10 ∧ mn < mx) →
        ptx_oven_set_vref_range_v mn mx c = c)) ∧
    ((0 ≤ tg ∧ tg ≤ 300 →
        ptx_oven_set_temp_target_c tg c = { c with temp_target_c := tg }) ∧
      (¬(0 ≤ tg ∧ tg ≤ 300) → ptx_oven_set_temp_target_c tg c = c)) ∧
    (((0.1 : ℚ) ≤ dl ∧ dl ≤ 50 →
        ptx_oven_set_temp_delta_c dl c = { c with temp_delta_c := dl }) ∧
      (¬((0.1 : ℚ) ≤ dl ∧ dl ≤ 50) → ptx_oven_set_temp_delta_c dl c = c)) ∧
    ((1 ≤ att ∧ att ≤ 10 →
        ptx_oven_set_max_ignition_attempts att c = { c with max_ignition_attempts := att }) ∧
      (¬(1 ≤ att ∧ att ≤ 10) → ptx_oven_set_max_ignition_attempts att c = c)) ∧
    ((1000 ≤ pg ∧ pg ≤ 10000 →
        ptx_oven_set_purge_time_ms pg c = { c with purge_time_ms := pg }) ∧
      (¬(1000 ≤ pg ∧ pg ≤ 10000) → ptx_oven_set_purge_time_ms pg c = c)) ∧
    ((0 < fr ∧ fr ≤ 50 →
        ptx_oven_set_flame_detect_temp_rise_c fr c = { c with flame_detect_temp_rise_c := fr }) ∧
      (¬(0 < fr ∧ fr ≤ 50) → ptx_oven_set_flame_detect_temp_rise_c fr c = c)) := by
  refine ⟨⟨?_, ?_⟩, ⟨?_, ?_⟩, ⟨?_, ?_⟩, ⟨?_, ?_⟩, ⟨?_, ?_⟩, ⟨?_, ?_⟩, ⟨?_, ?_⟩,
    ⟨?_, ?_⟩, ⟨?_, ?_⟩, ⟨?_, ?_⟩⟩ <;> intro h <;>
    simp only [ptx_oven_set_ignition_duration_ms, ptx_oven_set_periodic_log_ms,
      ptx_oven_set_sensor_fault_window_ms, ptx_oven_set_auto_resume_delay_ms,
      ptx_oven_set_vref_range_v, ptx_oven_set_temp_target_c, ptx_oven_set_temp_delta_c,
      ptx_oven_set_max_ignition_attempts, ptx_oven_set_purge_time_ms,
      ptx_oven_set_flame_detect_temp_rise_c] <;>
    first
      | exact if_pos h
      | exact if_neg h

/-- Claim C8 witness: the ignition-duration setter accepts 2000 ms and
silently rejects 31000 ms on the default configuration. -/
theorem claim_C8_setter_validation_witness :
    ptx_oven_set_ignition_duration_ms 2000 ptx_oven_default_config =
      { ptx_oven_default_config with ignition_duration_ms := 2000 } ∧
    ptx_oven_set_ignition_duration_ms 31000 ptx_oven_default_config =
      ptx_oven_default_config :=
  ⟨(claim_C8_setter_validation ptx_oven_default_config 2000 100 100 1000 1 1000
      0 1 0 1 1).1.1 (by norm_num),
   (claim_C8_setter_validation ptx_oven_default_config 31000 100 100 1000 1 1000
      0 1 0 1 1).1.2 (by norm_num)⟩

/-- Claim C9: the bulk setter copies all eleven fields verbatim with no
range validation (here witnessed by installing a zero ignition duration and
inverted vref bounds, both of which the individual setters reject), and a
NULL pointer is the only rejected input, leaving the configuration
unchanged. -/
theorem claim_C9_bulk_setter_no_validation :
    (∀ c cur : ptx_oven_config_t, ptx_oven_set_config (some c) cur = c) ∧
    (∀ cur : ptx_oven_config_t, ptx_oven_set_config none cur = cur) ∧
    ptx_oven_set_config
        (some { ptx_oven_default_config with
                  ignition_duration_ms := 0, vref_min_v := 6, vref_max_v := 5 })
        ptx_oven_default_config =
      { ptx_oven_default_config with
          ignition_duration_ms := 0, vref_min_v := 6, vref_max_v := 5 } ∧
    (∀ cur : ptx_oven_config_t, ptx_oven_set_ignition_duration_ms 0 cur = cur) ∧
    (∀ cur : ptx_oven_config_t, ptx_oven_set_vref_range_v 6 5 cur = cur) := by
  refine ⟨fun c cur => rfl, fun cur => rfl, rfl, fun cur => ?_, fun cur => ?_⟩
  · simp [ptx_oven_set_ignition_duration_ms]
  · norm_num [ptx_oven_set_vref_range_v]

theorem ptx_oven_control_update_eq (flame : Bool) (cfg : ptx_oven_config_t)
    (s : OvenState) (now : ℕ) (v g : ℚ) :
    ptx_oven_control_update flame cfg s now v g =
      (let s1 := ptx_eval_sensor_faults_with_timing cfg s now v g
       let s3 := { s1 with status := { s1.status with
                     door_open := s1.status.door_open
                     temperature_c := ptx_compute_temperature v g } }
       let s4 := ptx_update_heating flame cfg s3 now
       let s5 := ptx_oven_run_log cfg s4 now
       { s5 with status := { s5.status with ignition_attempt := s5.ignition_attempt } }) :=
  rfl

theorem ptx_oven_control_update_decompose (flame : Bool) (cfg : ptx_oven_config_t)
    (s : OvenState) (now : ℕ) (v g : ℚ) :
    ptx_oven_control_update flame cfg s now v g =
      (let s4 := ptx_update_heating flame cfg (ptx_scan_mid cfg s now v g) now
       let s5 := ptx_oven_run_log cfg s4 now
       { s5 with status := { s5.status with ignition_attempt := s5.ignition_attempt } }) :=
  rfl

theorem ptx_scan_mid_fields (cfg : ptx_oven_config_t) (s : OvenState) (now : ℕ)
    (v g : ℚ) :
    (ptx_scan_mid cfg s now v g).status.state = s.status.state ∧
    (ptx_scan_mid cfg s now v g).status.gas_on = s.status.gas_on ∧
    (ptx_scan_mid cfg s now v g).status.igniter_on = s.status.igniter_on ∧
    (ptx_scan_mid cfg s now v g).status.door_open = s.status.door_open ∧
    (ptx_scan_mid cfg s now v g).status.sensor_fault =
      (ptx_eval_sensor_faults_with_timing cfg s now v g).status.sensor_fault ∧
    (ptx_scan_mid cfg s now v g).out_of_range_since_ms =
      (ptx_eval_sensor_faults_with_timing cfg s now v g).out_of_range_since_ms ∧
    (ptx_scan_mid cfg s now v g).valid_since_ms =
      (ptx_eval_sensor_faults_with_timing cfg s now v g).valid_since_ms ∧
    (ptx_scan_mid cfg s now v g).status.temperature_c = ptx_compute_temperature v g ∧
    (ptx_scan_mid cfg s now v g).ignition_start_ms = s.ignition_start_ms ∧
    (ptx_scan_mid cfg s now v g).purge_start_ms = s.purge_start_ms ∧
    (ptx_scan_mid cfg s now v g).ignition_attempt = s.ignition_attempt ∧
    (ptx_scan_mid cfg s now v g).temp_at_ignition_start = s.temp_at_ignition_start := by
  obtain ⟨hg, hi, hstt, hdoor, hlock, htemp, hign, hpurge, hatt, htais, hlog⟩ :=
    ptx_eval_faults_preserves cfg s now v g
  simp [ptx_scan_mid, hstt, hg, hi, hdoor, hign, hpurge, hatt, htais]

theorem ptx_update_heating_override (flame : Bool) (cfg : ptx_oven_config_t)
    (s : OvenState) (now : ℕ)
    (h : s.status.door_open = true ∨ s.status.sensor_fault = true) :
    (ptx_update_heating flame cfg s now).status.gas_on = false ∧
    (ptx_update_heating flame cfg s now).status.igniter_on = false ∧
    (ptx_update_heating flame cfg s now).status.state = .IDLE ∧
    (ptx_update_heating flame cfg s now).ignition_attempt = 0 := by
  simp only [ptx_update_heating]
  rcases h with h | h <;> simp [h]

theorem outputs_inv_of_fields {s t : OvenState}
    (hg : t.status.gas_on = s.status.gas_on)
    (hi : t.status.igniter_on = s.status.igniter_on)
    (hst : t.status.state = s.status.state)
    (hf : t.status.sensor_fault = s.status.sensor_fault)
    (h : OutputsInv s) : OutputsInv t := by
  unfold OutputsInv at *
  rw [hg, hi, hst, hf]
  exact h

theorem outputs_inv_weaken {s : OvenState} (h : OutputsInv s) : OutputsStateInv s :=
  fun hc => (h hc).1

set_option maxHeartbeats 1000000 in
theorem ptx_update_heating_outputs (flame : Bool) (cfg : ptx_oven_config_t)
    (s : OvenState) (now : ℕ) (h : OutputsStateInv s) :
    OutputsInv (ptx_update_heating flame cfg s now) := by
  obtain ⟨st, g1, g2, g3, g4, g5, g6, g7⟩ := s
  obtain ⟨f1, f2, f3, f4, f5, f6, f7, f8, f9, f10, f11, f12⟩ := st
  unfold OutputsStateInv at h
  unfold OutputsInv
  simp only [ptx_update_heating]
  cases f7 <;> split_ifs <;> simp_all

theorem ptx_oven_control_update_outputs (flame : Bool) (cfg : ptx_oven_config_t)
    (s : OvenState) (now : ℕ) (v g : ℚ) (h : OutputsStateInv s) :
    OutputsInv (ptx_oven_control_update flame cfg s now v g) := by
  rw [ptx_oven_control_update_eq]
  obtain ⟨hg, hi, hstt, hdoor, hrest⟩ := ptx_eval_faults_preserves cfg s now v g
  set s1 := ptx_eval_sensor_faults_with_timing cfg s now v g with hs1
  set s3 : OvenState :=
    { s1 with status := { s1.status with
        door_open := s1.status.door_open
        temperature_c := ptx_compute_temperature v g } } with hs3
  have h3 : OutputsStateInv s3 := by
    unfold OutputsStateInv at h ⊢
    simp only [hs3]
    simpa [hg, hi, hstt] using h
  have h4 := ptx_update_heating_outputs flame cfg s3 now h3
  set s4 := ptx_update_heating flame cfg s3 now with hs4
  have hlog := ptx_oven_run_log_preserves cfg s4 now
  exact outputs_inv_of_fields (by simp [hlog.1]) (by simp [hlog.1]) (by simp [hlog.1])
    (by simp [hlog.1]) h4

theorem ptx_reachable_outputs_inv (s : OvenState) (h : PtxReachable s) :
    OutputsInv s := by
  induction h with
  | boot =>
      intro hc
      simp [ptx_boot_state] at hc
  | start s' _ _ =>
      intro hc
      simp [ptx_oven_control_init] at hc
  | scan s' flame cfg now v g _ ih =>
      exact ptx_oven_control_update_outputs flame cfg s' now v g (outputs_inv_weaken ih)
  | door s' b _ ih =>
      exact outputs_inv_of_fields (by simp [ptx_oven_set_door_state])
        (by simp [ptx_oven_set_door_state]) (by simp [ptx_oven_set_door_state])
        (by simp [ptx_oven_set_door_state]) ih
  | reset s' _ ih =>
      simp only [ptx_oven_reset_ignition_lockout]
      split_ifs with hlock
      · intro hc
        simp only at hc
        have := ih hc
        rw [hlock] at this
        rcases this.1 with h' | h' <;> exact absurd h' (by simp)
      · exact ih

/-- Claim C2 counterexample: the invariant quantifies over *all* sequences
of public operations, but the door-state setter only records the flag, so
the concrete reachable sequence boot; init; one igniting scan; door setter
ends in a state with `gas_on = true` and `door_open = true`
simultaneously (outputs are only forced off at the next scan). -/
theorem claim_C2_counterexample :
    PtxReachable
      (ptx_oven_set_door_state
        (ptx_oven_control_update false ptx_oven_default_config
          (ptx_oven_control_init ptx_boot_state) 0 5000 500) true) ∧
    (ptx_oven_set_door_state
        (ptx_oven_control_update false ptx_oven_default_config
          (ptx_oven_control_init ptx_boot_state) 0 5000 500) true).status.gas_on = true ∧
    (ptx_oven_set_door_state
        (ptx_oven_control_update false ptx_oven_default_config
          (ptx_oven_control_init ptx_boot_state) 0 5000 500) true).status.igniter_on = true ∧
    (ptx_oven_set_door_state
        (ptx_oven_control_update false ptx_oven_default_config
          (ptx_oven_control_init ptx_boot_state) 0 5000 500) true).status.door_open = true :=
  ⟨PtxReachable.door _ true
      (PtxReachable.scan _ false ptx_oven_default_config 0 5000 500
        (PtxReachable.start _ PtxReachable.boot)),
   by norm_num [ptx_oven_set_door_state, ptx_oven_control_update, ptx_eval_sensor_faults_with_timing,
      ptx_update_heating, ptx_oven_run_log, ptx_oven_control_init, ptx_boot_state, ptx_vref_bad,
      ptx_signal_bad, ptx_compute_temperature, ptx_read_door_open, ptx_oven_default_config, wsub],
   by norm_num [ptx_oven_set_door_state, ptx_oven_control_update, ptx_eval_sensor_faults_with_timing,
      ptx_update_heating, ptx_oven_run_log, ptx_oven_control_init, ptx_boot_state, ptx_vref_bad,
      ptx_signal_bad, ptx_compute_temperature, ptx_read_door_open, ptx_oven_default_config, wsub],
   by norm_num [ptx_oven_set_door_state, ptx_oven_control_update, ptx_eval_sensor_faults_with_timing,
      ptx_update_heating, ptx_oven_run_log, ptx_oven_control_init, ptx_boot_state, ptx_vref_bad,
      ptx_signal_bad, ptx_compute_temperature, ptx_read_door_open, ptx_oven_default_config, wsub]⟩

/-- Claim C2 (amended): in every state reachable by any sequence of the
public operations, `gas_on`/`igniter_on` are true only when the state is
`IGNITING` or `HEATING` (hence never in `LOCKOUT`) and never while
`sensor_fault` is latched; the remaining conjunct — never on while
`door_open` — holds in every state produced by a per-scan update (the
override forces outputs off before the scan ends), but not in general
immediately after the door setter, which only records the flag. -/
theorem claim_C2_amended :
    (∀ s : OvenState, PtxReachable s → OutputsInv s) ∧
    (∀ (s : OvenState) (flame : Bool) (cfg : ptx_oven_config_t) (now : ℕ) (v g : ℚ),
      ((ptx_oven_control_update flame cfg s now v g).status.gas_on = true ∨
        (ptx_oven_control_update flame cfg s now v g).status.igniter_on = true) →
      (ptx_oven_control_update flame cfg s now v g).status.door_open = false) := by
  refine ⟨ptx_reachable_outputs_inv, ?_⟩
  intro s flame cfg now v g hc
  rw [ptx_oven_control_update_eq] at hc ⊢
  set s1 := ptx_eval_sensor_faults_with_timing cfg s now v g with hs1
  set s3 : OvenState :=
    { s1 with status := { s1.status with
        door_open := s1.status.door_open
        temperature_c := ptx_compute_temperature v g } } with hs3
  set s4 := ptx_update_heating flame cfg s3 now with hs4
  have hlog := ptx_oven_run_log_preserves cfg s4 now
  have hdoor4 : s4.status.door_open = s3.status.door_open :=
    (ptx_update_heating_preserves flame cfg s3 now).2.1
  by_contra hd
  have hd3 : s3.status.door_open = true := by
    simp only [hlog.1] at hd
    simp only [hdoor4] at hd
    simpa using (Bool.not_eq_false _).mp (by simpa using hd)
  obtain ⟨hg4, hi4, _, _⟩ := ptx_update_heating_override flame cfg s3 now (Or.inl hd3)
  rcases hc with hc | hc <;> simp only [hlog.1] at hc
  · rw [hg4] at hc
    exact Bool.false_ne_true hc
  · rw [hi4] at hc
    exact Bool.false_ne_true hc

/-- Claim C2 amended witness: the invariant at a concrete reachable
igniting state, and the door conjunct after a concrete scan whose outputs
are on. -/
theorem claim_C2_amended_witness :
    OutputsInv
      (ptx_oven_control_update false ptx_oven_default_config
        (ptx_oven_control_init ptx_boot_state) 0 5000 500) ∧
    (ptx_oven_control_update false ptx_oven_default_config
        (ptx_oven_control_init ptx_boot_state) 0 5000 500).status.door_open = false :=
  ⟨claim_C2_amended.1 _
      (PtxReachable.scan _ false ptx_oven_default_config 0 5000 500
        (PtxReachable.start _ PtxReachable.boot)),
   claim_C2_amended.2 (ptx_oven_control_init ptx_boot_state) false
      ptx_oven_default_config 0 5000 500 (Or.inl (by norm_num [ptx_oven_set_door_state, ptx_oven_control_update, ptx_eval_sensor_faults_with_timing,
      ptx_update_heating, ptx_oven_run_log, ptx_oven_control_init, ptx_boot_state, ptx_vref_bad,
      ptx_signal_bad, ptx_compute_temperature, ptx_read_door_open, ptx_oven_default_config, wsub]))⟩

theorem eval_faults_in_range_not_latched (cfg : ptx_oven_config_t) (s : OvenState)
    (now : ℕ) (v g : ℚ) (hoor : ptx_out_of_range cfg v g = false)
    (hf : s.status.sensor_fault = false) :
    (ptx_eval_sensor_faults_with_timing cfg s now v g).status.sensor_fault = false ∧
    (ptx_eval_sensor_faults_with_timing cfg s now v g).out_of_range_since_ms = 0 ∧
    (ptx_eval_sensor_faults_with_timing cfg s now v g).valid_since_ms = 0 := by
  unfold ptx_out_of_range at hoor
  simp only [ptx_eval_sensor_faults_with_timing, hoor, hf]
  simp [Bool.or_eq_false_iff.mp hoor]

theorem heating_lockout_step (flame : Bool) (cfg : ptx_oven_config_t)
    (s : OvenState) (now : ℕ) (hst : s.status.state = .LOCKOUT)
    (hdoor : s.status.door_open = false) (hfault : s.status.sensor_fault = false) :
    ptx_update_heating flame cfg s now =
      { s with status := { s.status with
          gas_on := false
          igniter_on := false
          ignition_lockout := true } } := by
  simp only [ptx_update_heating, hst, hdoor, hfault]
  simp

theorem scan_lockout_step (flame : Bool) (cfg : ptx_oven_config_t) (s : OvenState)
    (now : ℕ) (v g : ℚ) (hst : s.status.state = .LOCKOUT)
    (hdoor : s.status.door_open = false) (hfault : s.status.sensor_fault = false)
    (hoor : ptx_out_of_range cfg v g = false) :
    (ptx_oven_control_update flame cfg s now v g).status.state = .LOCKOUT ∧
    (ptx_oven_control_update flame cfg s now v g).status.gas_on = false ∧
    (ptx_oven_control_update flame cfg s now v g).status.igniter_on = false ∧
    (ptx_oven_control_update flame cfg s now v g).status.ignition_lockout = true ∧
    (ptx_oven_control_update flame cfg s now v g).status.door_open = false ∧
    (ptx_oven_control_update flame cfg s now v g).status.sensor_fault = false := by
  rw [ptx_oven_control_update_decompose]
  obtain ⟨hst3, hg3, hi3, hdoor3, hf3, -⟩ := ptx_scan_mid_fields cfg s now v g
  rw [hst] at hst3
  rw [hdoor] at hdoor3
  obtain ⟨hf1, -, -⟩ := eval_faults_in_range_not_latched cfg s now v g hoor hfault
  rw [hf1] at hf3
  rw [heating_lockout_step flame cfg (ptx_scan_mid cfg s now v g) now hst3 hdoor3 hf3]
  have hlog := ptx_oven_run_log_preserves cfg
    { ptx_scan_mid cfg s now v g with status := { (ptx_scan_mid cfg s now v g).status with
        gas_on := false
        igniter_on := false
        ignition_lockout := true } } now
  simp only [hlog.1]
  simp [hst3, hdoor3, hf3]

theorem scan_run_lockout (flame : Bool) (cfg : ptx_oven_config_t) :
    ∀ (scans : List (ℕ × ℚ × ℚ)) (s : OvenState),
    s.status.state = .LOCKOUT → s.status.door_open = false →
    s.status.sensor_fault = false → s.status.gas_on = false →
    s.status.igniter_on = false → s.status.ignition_lockout = true →
    (∀ p ∈ scans, ptx_out_of_range cfg p.2.1 p.2.2 = false) →
    (ptx_scan_run flame cfg s scans).status.state = .LOCKOUT ∧
    (ptx_scan_run flame cfg s scans).status.gas_on = false ∧
    (ptx_scan_run flame cfg s scans).status.igniter_on = false ∧
    (ptx_scan_run flame cfg s scans).status.ignition_lockout = true := by
  intro scans
  induction scans with
  | nil =>
      intro s h1 h2 h3 h4 h5 h6 _
      exact ⟨h1, h4, h5, h6⟩
  | cons p rest ih =>
      intro s h1 h2 h3 h4 h5 h6 hoor
      have hstep := scan_lockout_step flame cfg s p.1 p.2.1 p.2.2 h1 h2 h3
        (hoor p (List.mem_cons_self p rest))
      simp only [ptx_scan_run]
      exact ih (ptx_oven_control_update flame cfg s p.1 p.2.1 p.2.2)
        hstep.1 hstep.2.2.2.2.1 hstep.2.2.2.2.2 hstep.2.1 hstep.2.2.1 hstep.2.2.2.1
        (fun q hq => hoor q (List.mem_cons_of_mem p hq))

theorem heating_lockout_entry (cfg : ptx_oven_config_t) (s : OvenState) (now : ℕ)
    (hdoor : s.status.door_open = false) (hfault : s.status.sensor_fault = false)
    (hst : s.status.state = .IGNITING)
    (helap : cfg.ignition_duration_ms ≤ wsub now s.ignition_start_ms)
    (hrise : ¬(cfg.flame_detect_temp_rise_c <
      s.status.temperature_c - s.temp_at_ignition_start))
    (hatt : cfg.max_ignition_attempts ≤ s.ignition_attempt) :
    (ptx_update_heating true cfg s now).status.state = .LOCKOUT ∧
    (ptx_update_heating true cfg s now).status.ignition_lockout = true ∧
    (ptx_update_heating true cfg s now).status.gas_on = false ∧
    (ptx_update_heating true cfg s now).status.igniter_on = false := by
  simp only [ptx_update_heating, hst, hdoor, hfault]
  simp [helap, hrise, hatt]

set_option maxRecDepth 40000 in
set_option maxHeartbeats 2000000 in
/-- Claim C3 counterexample: from the state reached by three concrete
failed ignition attempts (flame detection enabled, default configuration)
the controller is in `LOCKOUT`; one further scan with the door open moves
`state` to `IDLE` — without any reset call — while `ignition_lockout`
stays `true`.  So LOCKOUT does *not* persist across arbitrarily many
further scans: the door/fault override is an additional exit. -/
theorem claim_C3_counterexample :
    (ptx_scan_run true ptx_oven_default_config (ptx_oven_control_init ptx_boot_state)
        ptx_lockout_demo_trace).status.state = .LOCKOUT ∧
    (ptx_scan_run true ptx_oven_default_config (ptx_oven_control_init ptx_boot_state)
        ptx_lockout_demo_trace).status.ignition_lockout = true ∧
    (ptx_oven_control_update true ptx_oven_default_config
        (ptx_oven_set_door_state
          (ptx_scan_run true ptx_oven_default_config (ptx_oven_control_init ptx_boot_state)
            ptx_lockout_demo_trace) true) 21000 5000 500).status.state = .IDLE ∧
    (ptx_oven_control_update true ptx_oven_default_config
        (ptx_oven_set_door_state
          (ptx_scan_run true ptx_oven_default_config (ptx_oven_control_init ptx_boot_state)
            ptx_lockout_demo_trace) true) 21000 5000 500).status.ignition_lockout = true := by
  norm_num [ptx_lockout_demo_trace, ptx_scan_run, ptx_oven_set_door_state,
    ptx_oven_control_update, ptx_eval_sensor_faults_with_timing, ptx_update_heating,
    ptx_oven_run_log, ptx_oven_control_init, ptx_boot_state, ptx_vref_bad,
    ptx_signal_bad, ptx_compute_temperature, ptx_read_door_open,
    ptx_oven_default_config, wsub]

/-- Claim C3 (amended): with flame detection enabled, when an ignition
attempt fails (no sufficient temperature rise after the ignition duration)
and the attempt counter has reached `max_ignition_attempts`, the heating
step enters `LOCKOUT` with `ignition_lockout = true` and both outputs
forced off; `LOCKOUT` then persists across arbitrarily many further scans
*in which the door/fault override does not fire* (door closed, readings in
range, no latched fault) with outputs off every scan; and the explicit
reset call from `LOCKOUT` unconditionally — for every state, so regardless
of timestamps, readings, door or fault bits — returns to `IDLE`, clears
`ignition_lockout`, and zeroes both attempt counters.  (As stated the
claim is false: a scan with `door_open` or `sensor_fault` exits `LOCKOUT`
to `IDLE` without a reset; see the counterexample.) -/
theorem claim_C3_amended :
    (∀ (cfg : ptx_oven_config_t) (s : OvenState) (now : ℕ),
      s.status.door_open = false → s.status.sensor_fault = false →
      s.status.state = .IGNITING →
      cfg.ignition_duration_ms ≤ wsub now s.ignition_start_ms →
      ¬(cfg.flame_detect_temp_rise_c <
          s.status.temperature_c - s.temp_at_ignition_start) →
      cfg.max_ignition_attempts ≤ s.ignition_attempt →
      (ptx_update_heating true cfg s now).status.state = .LOCKOUT ∧
      (ptx_update_heating true cfg s now).status.ignition_lockout = true ∧
      (ptx_update_heating true cfg s now).status.gas_on = false ∧
      (ptx_update_heating true cfg s now).status.igniter_on = false) ∧
    (∀ (flame : Bool) (cfg : ptx_oven_config_t) (s : OvenState)
        (scans : List (ℕ × ℚ × ℚ)),
      s.status.state = .LOCKOUT → s.status.door_open = false →
      s.status.sensor_fault = false → s.status.gas_on = false →
      s.status.igniter_on = false → s.status.ignition_lockout = true →
      (∀ p ∈ scans, ptx_out_of_range cfg p.2.1 p.2.2 = false) →
      (ptx_scan_run flame cfg s scans).status.state = .LOCKOUT ∧
      (ptx_scan_run flame cfg s scans).status.gas_on = false ∧
      (ptx_scan_run flame cfg s scans).status.igniter_on = false ∧
      (ptx_scan_run flame cfg s scans).status.ignition_lockout = true) ∧
    (∀ s : OvenState, s.status.state = .LOCKOUT →
      (ptx_oven_reset_ignition_lockout s).status.state = .IDLE ∧
      (ptx_oven_reset_ignition_lockout s).status.ignition_lockout = false ∧
      (ptx_oven_reset_ignition_lockout s).status.ignition_attempt = 0 ∧
      (ptx_oven_reset_ignition_lockout s).ignition_attempt = 0) := by
  refine ⟨fun cfg s now h1 h2 h3 h4 h5 h6 =>
      heating_lockout_entry cfg s now h1 h2 h3 h4 h5 h6,
    fun flame cfg s scans h1 h2 h3 h4 h5 h6 h7 =>
      scan_run_lockout flame cfg scans s h1 h2 h3 h4 h5 h6 h7,
    fun s hst => ?_⟩
  simp [ptx_oven_reset_ignition_lockout, hst]

/-- Claim C3 amended witness: concrete lockout entry from an igniting state
on its third failed attempt, concrete persistence over two in-range scans,
and a concrete reset. -/
theorem claim_C3_amended_witness :
    ((ptx_update_heating true ptx_oven_default_config ptx_demo_igniting_state
        5000).status.state = .LOCKOUT ∧
      (ptx_update_heating true ptx_oven_default_config ptx_demo_igniting_state
        5000).status.ignition_lockout = true ∧
      (ptx_update_heating true ptx_oven_default_config ptx_demo_igniting_state
        5000).status.gas_on = false ∧
      (ptx_update_heating true ptx_oven_default_config ptx_demo_igniting_state
        5000).status.igniter_on = false) ∧
    ((ptx_scan_run true ptx_oven_default_config ptx_demo_lockout_state
        [(6000, 5000, 2500), (7000, 5000, 2500)]).status.state = .LOCKOUT ∧
      (ptx_scan_run true ptx_oven_default_config ptx_demo_lockout_state
        [(6000, 5000, 2500), (7000, 5000, 2500)]).status.gas_on = false ∧
      (ptx_scan_run true ptx_oven_default_config ptx_demo_lockout_state
        [(6000, 5000, 2500), (7000, 5000, 2500)]).status.igniter_on = false ∧
      (ptx_scan_run true ptx_oven_default_config ptx_demo_lockout_state
        [(6000, 5000, 2500), (7000, 5000, 2500)]).status.ignition_lockout = true) ∧
    ((ptx_oven_reset_ignition_lockout ptx_demo_lockout_state).status.state = .IDLE ∧
      (ptx_oven_reset_ignition_lockout ptx_demo_lockout_state).status.ignition_lockout = false ∧
      (ptx_oven_reset_ignition_lockout ptx_demo_lockout_state).status.ignition_attempt = 0 ∧
      (ptx_oven_reset_ignition_lockout ptx_demo_lockout_state).ignition_attempt = 0) :=
  ⟨claim_C3_amended.1 ptx_oven_default_config ptx_demo_igniting_state 5000
      (by norm_num [ptx_demo_igniting_state])
      (by norm_num [ptx_demo_igniting_state])
      (by norm_num [ptx_demo_igniting_state])
      (by norm_num [ptx_demo_igniting_state, ptx_oven_default_config, wsub])
      (by norm_num [ptx_demo_igniting_state, ptx_oven_default_config])
      (by norm_num [ptx_demo_igniting_state, ptx_oven_default_config]),
   claim_C3_amended.2.1 true ptx_oven_default_config ptx_demo_lockout_state
      [(6000, 5000, 2500), (7000, 5000, 2500)]
      (by norm_num [ptx_demo_lockout_state])
      (by norm_num [ptx_demo_lockout_state])
      (by norm_num [ptx_demo_lockout_state])
      (by norm_num [ptx_demo_lockout_state])
      (by norm_num [ptx_demo_lockout_state])
      (by norm_num [ptx_demo_lockout_state])
      (by norm_num [ptx_out_of_range, ptx_vref_bad, ptx_signal_bad,
        ptx_oven_default_config]),
   claim_C3_amended.2.2 ptx_demo_lockout_state
      (by norm_num [ptx_demo_lockout_state])⟩

theorem scan_fault_fields (flame : Bool) (cfg : ptx_oven_config_t) (s : OvenState)
    (now : ℕ) (v g : ℚ) :
    (ptx_oven_control_update flame cfg s now v g).status.sensor_fault =
      (ptx_eval_sensor_faults_with_timing cfg s now v g).status.sensor_fault ∧
    (ptx_oven_control_update flame cfg s now v g).out_of_range_since_ms =
      (ptx_eval_sensor_faults_with_timing cfg s now v g).out_of_range_since_ms ∧
    (ptx_oven_control_update flame cfg s now v g).valid_since_ms =
      (ptx_eval_sensor_faults_with_timing cfg s now v g).valid_since_ms := by
  rw [ptx_oven_control_update_decompose]
  obtain ⟨hmst, hmg, hmi, hmd, hmf, hmo, hmv, hmrest⟩ := ptx_scan_mid_fields cfg s now v g
  have hheat := ptx_update_heating_preserves flame cfg (ptx_scan_mid cfg s now v g) now
  have hlog := ptx_oven_run_log_preserves cfg
    (ptx_update_heating flame cfg (ptx_scan_mid cfg s now v g) now) now
  simp only [hlog.1, hlog.2.1, hlog.2.2.1]
  simp only [hheat.1, hheat.2.2.2.2.2.1, hheat.2.2.2.2.2.2.1]
  exact ⟨hmf, hmo, hmv⟩

theorem eval_faults_oor (cfg : ptx_oven_config_t) (s : OvenState) (now : ℕ)
    (v g : ℚ) (hoor : ptx_out_of_range cfg v g = true) :
    (ptx_eval_sensor_faults_with_timing cfg s now v g).status.sensor_fault =
      (s.status.sensor_fault ||
        (!s.status.sensor_fault &&
          decide (cfg.sensor_fault_window_ms <
            wsub now (if s.out_of_range_since_ms = 0 then now else s.out_of_range_since_ms)))) ∧
    (ptx_eval_sensor_faults_with_timing cfg s now v g).out_of_range_since_ms =
      (if s.out_of_range_since_ms = 0 then now else s.out_of_range_since_ms) ∧
    (ptx_eval_sensor_faults_with_timing cfg s now v g).valid_since_ms = 0 := by
  unfold ptx_out_of_range at hoor
  simp only [ptx_eval_sensor_faults_with_timing, hoor]
  simp [hoor]

theorem scan_fault_oor_step (flame : Bool) (cfg : ptx_oven_config_t) (s : OvenState)
    (now : ℕ) (v g : ℚ) (hoor : ptx_out_of_range cfg v g = true) :
    (ptx_oven_control_update flame cfg s now v g).status.sensor_fault =
      (s.status.sensor_fault ||
        (!s.status.sensor_fault &&
          decide (cfg.sensor_fault_window_ms <
            wsub now (if s.out_of_range_since_ms = 0 then now else s.out_of_range_since_ms)))) ∧
    (ptx_oven_control_update flame cfg s now v g).out_of_range_since_ms =
      (if s.out_of_range_since_ms = 0 then now else s.out_of_range_since_ms) ∧
    (ptx_oven_control_update flame cfg s now v g).valid_since_ms = 0 := by
  obtain ⟨h1, h2, h3⟩ := scan_fault_fields flame cfg s now v g
  obtain ⟨e1, e2, e3⟩ := eval_faults_oor cfg s now v g hoor
  exact ⟨h1.trans e1, h2.trans e2, h3.trans e3⟩

theorem fault_run_oor (flame : Bool) (cfg : ptx_oven_config_t) :
    ∀ (scans : List (ℕ × ℚ × ℚ)) (s : OvenState) (t0 : ℕ),
    s.out_of_range_since_ms = t0 → t0 ≠ 0 →
    (∀ p ∈ scans, ptx_out_of_range cfg p.2.1 p.2.2 = true ∧
      t0 ≤ p.1 ∧ p.1 < t0 + 4294967296) →
    (ptx_scan_run flame cfg s scans).out_of_range_since_ms = t0 ∧
    (ptx_scan_run flame cfg s scans).status.sensor_fault =
      (s.status.sensor_fault ||
        scans.any fun p => decide (cfg.sensor_fault_window_ms < p.1 - t0)) := by
  intro scans
  induction scans with
  | nil =>
      intro s t0 h1 _ _
      simp [ptx_scan_run, h1]
  | cons p rest ih =>
      intro s t0 h1 h2 h3
      obtain ⟨hoor, hle, hlt⟩ := h3 p (List.mem_cons_self p rest)
      have hstep := scan_fault_oor_step flame cfg s p.1 p.2.1 p.2.2 hoor
      rw [h1, if_neg h2] at hstep
      rw [wsub_eq_sub hle (by omega)] at hstep
      simp only [ptx_scan_run]
      obtain ⟨ih1, ih2⟩ := ih (ptx_oven_control_update flame cfg s p.1 p.2.1 p.2.2) t0
        hstep.2.1 h2 (fun q hq => h3 q (List.mem_cons_of_mem p hq))
      refine ⟨ih1, ?_⟩
      rw [ih2, hstep.1]
      simp only [List.any_cons]
      cases s.status.sensor_fault <;> simp

/-- Claim C4 counterexample: an out-of-range run whose first scan carries
timestamp 0 (the boot scan).  With the default 1000 ms window the run has
persisted 1001 ms strictly beyond the window at the second scan, so the
claim requires the latch, but the code treats `out_of_range_since_ms = 0`
as "no run in progress" and never anchors the run at timestamp 0:
`sensor_fault` stays false. -/
theorem claim_C4_counterexample :
    ptx_out_of_range ptx_oven_default_config 0 0 = true ∧
    ptx_oven_default_config.sensor_fault_window_ms < 1001 - 0 ∧
    (ptx_scan_run false ptx_oven_default_config (ptx_oven_control_init ptx_boot_state)
        [(0, 0, 0), (1001, 0, 0)]).status.sensor_fault = false := by
  norm_num [ptx_scan_run, ptx_oven_control_update, ptx_eval_sensor_faults_with_timing,
    ptx_update_heating, ptx_oven_run_log, ptx_oven_control_init, ptx_boot_state,
    ptx_vref_bad, ptx_signal_bad, ptx_out_of_range, ptx_compute_temperature,
    ptx_read_door_open, ptx_oven_default_config, wsub]

/-- Claim C4 (amended): for every scan sequence forming one continuous
out-of-range run that starts with no latched fault and no run in progress,
*provided the run's first scan has a nonzero timestamp* (timestamp 0 is the
sentinel for "no run", see the counterexample), the latched `sensor_fault`
after the run is true exactly when the run has persisted strictly longer
than `sensor_fault_window_ms` since the timestamp `t0` of the scan on which
it began (`T` is the largest scan timestamp of the run; timestamps do not
wrap within the run). -/
theorem claim_C4_amended (flame : Bool) (cfg : ptx_oven_config_t) (s : OvenState)
    (t0 T : ℕ) (v0 g0 : ℚ) (rest : List (ℕ × ℚ × ℚ))
    (hfault : s.status.sensor_fault = false)
    (hsince : s.out_of_range_since_ms = 0)
    (ht0 : 0 < t0)
    (hoor0 : ptx_out_of_range cfg v0 g0 = true)
    (hoorR : ∀ p ∈ rest, ptx_out_of_range cfg p.2.1 p.2.2 = true)
    (hbound : ∀ p ∈ rest, t0 ≤ p.1 ∧ p.1 ≤ T)
    (ht0T : t0 ≤ T)
    (hT : T < t0 + 4294967296)
    (hTat : T = t0 ∨ ∃ p ∈ rest, p.1 = T) :
    ((ptx_scan_run flame cfg s ((t0, v0, g0) :: rest)).status.sensor_fault = true ↔
      cfg.sensor_fault_window_ms < T - t0) := by
  simp only [ptx_scan_run]
  have hstep := scan_fault_oor_step flame cfg s t0 v0 g0 hoor0
  rw [hsince, if_pos rfl, wsub_self, hfault] at hstep
  have hf1 : (ptx_oven_control_update flame cfg s t0 v0 g0).status.sensor_fault = false := by
    rw [hstep.1]
    simp
  obtain ⟨_, hrun⟩ := fault_run_oor flame cfg rest
    (ptx_oven_control_update flame cfg s t0 v0 g0) t0 hstep.2.1 (by omega)
    (fun q hq => ⟨hoorR q hq, (hbound q hq).1, by have := (hbound q hq).2; omega⟩)
  rw [hrun, hf1]
  simp only [Bool.false_or, List.any_eq_true, decide_eq_true_eq]
  constructor
  · rintro ⟨p, hp, hlt⟩
    have := (hbound p hp).2
    omega
  · intro hlt
    rcases hTat with h | ⟨p, hp, hpT⟩
    · omega
    · exact ⟨p, hp, by omega⟩

/-- Claim C4 amended witness: with the default 1000 ms window, a run
starting at timestamp 100 observed again at 999 ms of elapsed time has not
latched, and one observed at 1001 ms of elapsed time has. -/
theorem claim_C4_amended_witness :
    (¬(ptx_scan_run false ptx_oven_default_config (ptx_oven_control_init ptx_boot_state)
        [(100, 0, 0), (1099, 0, 0)]).status.sensor_fault = true ∧
      ¬ptx_oven_default_config.sensor_fault_window_ms < 1099 - 100) ∧
    ((ptx_scan_run false ptx_oven_default_config (ptx_oven_control_init ptx_boot_state)
        [(100, 0, 0), (1101, 0, 0)]).status.sensor_fault = true ∧
      ptx_oven_default_config.sensor_fault_window_ms < 1101 - 100) := by
  have h1 := claim_C4_amended false ptx_oven_default_config
    (ptx_oven_control_init ptx_boot_state) 100 1099 0 0 [(1099, 0, 0)]
    (by norm_num [ptx_oven_control_init, ptx_boot_state])
    (by norm_num [ptx_oven_control_init, ptx_boot_state])
    (by norm_num)
    (by norm_num [ptx_out_of_range, ptx_vref_bad, ptx_signal_bad, ptx_oven_default_config])
    (by intro p hp; simp at hp; subst hp;
        norm_num [ptx_out_of_range, ptx_vref_bad, ptx_signal_bad, ptx_oven_default_config])
    (by intro p hp; simp at hp; subst hp; omega)
    (by omega) (by omega)
    (Or.inr ⟨(1099, 0, 0), by simp, rfl⟩)
  have h2 := claim_C4_amended false ptx_oven_default_config
    (ptx_oven_control_init ptx_boot_state) 100 1101 0 0 [(1101, 0, 0)]
    (by norm_num [ptx_oven_control_init, ptx_boot_state])
    (by norm_num [ptx_oven_control_init, ptx_boot_state])
    (by norm_num)
    (by norm_num [ptx_out_of_range, ptx_vref_bad, ptx_signal_bad, ptx_oven_default_config])
    (by intro p hp; simp at hp; subst hp;
        norm_num [ptx_out_of_range, ptx_vref_bad, ptx_signal_bad, ptx_oven_default_config])
    (by intro p hp; simp at hp; subst hp; omega)
    (by omega) (by omega)
    (Or.inr ⟨(1101, 0, 0), by simp, rfl⟩)
  constructor
  · constructor
    · intro hc
      have := h1.mp hc
      norm_num [ptx_oven_default_config] at this
    · norm_num [ptx_oven_default_config]
  · exact ⟨h2.mpr (by norm_num [ptx_oven_default_config]),
      by norm_num [ptx_oven_default_config]⟩

theorem eval_faults_in_range_latched (cfg : ptx_oven_config_t) (s : OvenState)
    (now : ℕ) (v g : ℚ) (hoor : ptx_out_of_range cfg v g = false)
    (hf : s.status.sensor_fault = true) :
    (cfg.auto_resume_delay_ms ≤
        wsub now (if s.valid_since_ms = 0 then now else s.valid_since_ms) →
      (ptx_eval_sensor_faults_with_timing cfg s now v g).status.sensor_fault = false ∧
      (ptx_eval_sensor_faults_with_timing cfg s now v g).valid_since_ms = 0) ∧
    (wsub now (if s.valid_since_ms = 0 then now else s.valid_since_ms) <
        cfg.auto_resume_delay_ms →
      (ptx_eval_sensor_faults_with_timing cfg s now v g).status.sensor_fault = true ∧
      (ptx_eval_sensor_faults_with_timing cfg s now v g).valid_since_ms =
        (if s.valid_since_ms = 0 then now else s.valid_since_ms)) ∧
    (ptx_eval_sensor_faults_with_timing cfg s now v g).out_of_range_since_ms = 0 := by
  unfold ptx_out_of_range at hoor
  simp only [ptx_eval_sensor_faults_with_timing, hoor, hf]
  simp only [Bool.or_eq_false_iff.mp hoor]
  refine ⟨fun hge => ?_, fun hlt => ?_, ?_⟩
  · rw [if_pos hge]
    simp
  · have hne : ¬(cfg.auto_resume_delay_ms ≤
        wsub now (if s.valid_since_ms = 0 then now else s.valid_since_ms)) := by omega
    rw [if_neg hne]
    simp
  · split_ifs <;> simp_all

theorem scan_fault_in_range_latched_step (flame : Bool) (cfg : ptx_oven_config_t)
    (s : OvenState) (now : ℕ) (v g : ℚ)
    (hoor : ptx_out_of_range cfg v g = false) (hf : s.status.sensor_fault = true) :
    (cfg.auto_resume_delay_ms ≤
        wsub now (if s.valid_since_ms = 0 then now else s.valid_since_ms) →
      (ptx_oven_control_update flame cfg s now v g).status.sensor_fault = false ∧
      (ptx_oven_control_update flame cfg s now v g).valid_since_ms = 0) ∧
    (wsub now (if s.valid_since_ms = 0 then now else s.valid_since_ms) <
        cfg.auto_resume_delay_ms →
      (ptx_oven_control_update flame cfg s now v g).status.sensor_fault = true ∧
      (ptx_oven_control_update flame cfg s now v g).valid_since_ms =
        (if s.valid_since_ms = 0 then now else s.valid_since_ms)) := by
  obtain ⟨h1, h2, h3⟩ := scan_fault_fields flame cfg s now v g
  obtain ⟨e1, e2, _⟩ := eval_faults_in_range_latched cfg s now v g hoor hf
  exact ⟨fun h => ⟨h1.trans (e1 h).1, h3.trans (e1 h).2⟩,
    fun h => ⟨h1.trans (e2 h).1, h3.trans (e2 h).2⟩⟩

theorem scan_fault_clear_step (flame : Bool) (cfg : ptx_oven_config_t)
    (s : OvenState) (now : ℕ) (v g : ℚ)
    (hoor : ptx_out_of_range cfg v g = false) (hf : s.status.sensor_fault = false) :
    (ptx_oven_control_update flame cfg s now v g).status.sensor_fault = false ∧
    (ptx_oven_control_update flame cfg s now v g).valid_since_ms = 0 := by
  obtain ⟨h1, h2, h3⟩ := scan_fault_fields flame cfg s now v g
  obtain ⟨e1, _, e3⟩ := eval_faults_in_range_not_latched cfg s now v g hoor hf
  exact ⟨h1.trans e1, h3.trans e3⟩

theorem fault_run_clear (flame : Bool) (cfg : ptx_oven_config_t) :
    ∀ (scans : List (ℕ × ℚ × ℚ)) (s : OvenState),
    s.status.sensor_fault = false → s.valid_since_ms = 0 →
    (∀ p ∈ scans, ptx_out_of_range cfg p.2.1 p.2.2 = false) →
    (ptx_scan_run flame cfg s scans).status.sensor_fault = false ∧
    (ptx_scan_run flame cfg s scans).valid_since_ms = 0 := by
  intro scans
  induction scans with
  | nil =>
      intro s h1 h2 _
      exact ⟨h1, h2⟩
  | cons p rest ih =>
      intro s h1 h2 hoor
      have hstep := scan_fault_clear_step flame cfg s p.1 p.2.1 p.2.2
        (hoor p (List.mem_cons_self p rest)) h1
      simp only [ptx_scan_run]
      exact ih (ptx_oven_control_update flame cfg s p.1 p.2.1 p.2.2)
        hstep.1 hstep.2 (fun q hq => hoor q (List.mem_cons_of_mem p hq))

theorem fault_run_in_range_latched (flame : Bool) (cfg : ptx_oven_config_t) :
    ∀ (scans : List (ℕ × ℚ × ℚ)) (s : OvenState) (t0 : ℕ),
    s.status.sensor_fault = true → s.valid_since_ms = t0 → t0 ≠ 0 →
    (∀ p ∈ scans, ptx_out_of_range cfg p.2.1 p.2.2 = false ∧
      t0 ≤ p.1 ∧ p.1 < t0 + 4294967296) →
    ((ptx_scan_run flame cfg s scans).status.sensor_fault = false ↔
      (scans.any fun p => decide (cfg.auto_resume_delay_ms ≤ p.1 - t0)) = true) ∧
    ((ptx_scan_run flame cfg s scans).status.sensor_fault = true →
      (ptx_scan_run flame cfg s scans).valid_since_ms = t0) ∧
    ((ptx_scan_run flame cfg s scans).status.sensor_fault = false →
      (ptx_scan_run flame cfg s scans).valid_since_ms = 0) := by
  intro scans
  induction scans with
  | nil =>
      intro s t0 h1 h2 _ _
      refine ⟨?_, fun _ => h2, fun hc => absurd (h1.symm.trans hc) (by simp)⟩
      simp [ptx_scan_run, h1]
  | cons p rest ih =>
      intro s t0 h1 h2 h3 hps
      obtain ⟨hoor, hle, hlt⟩ := hps p (List.mem_cons_self p rest)
      have hstep := scan_fault_in_range_latched_step flame cfg s p.1 p.2.1 p.2.2 hoor h1
      rw [h2, if_neg h3, wsub_eq_sub hle (by omega)] at hstep
      simp only [ptx_scan_run, List.any_cons]
      by_cases hcl : cfg.auto_resume_delay_ms ≤ p.1 - t0
      · obtain ⟨hc1, hc2⟩ := hstep.1 hcl
        obtain ⟨hr1, hr2⟩ := fault_run_clear flame cfg rest
          (ptx_oven_control_update flame cfg s p.1 p.2.1 p.2.2) hc1 hc2
          (fun q hq => (hps q (List.mem_cons_of_mem p hq)).1)
        refine ⟨?_, fun hc => absurd (hr1.symm.trans hc) (by simp), fun _ => hr2⟩
        simp [hr1, hcl]
      · obtain ⟨hc1, hc2⟩ := hstep.2 (by omega)
        obtain ⟨ih1, ih2, ih3⟩ := ih (ptx_oven_control_update flame cfg s p.1 p.2.1 p.2.2)
          t0 hc1 hc2 h3 (fun q hq => hps q (List.mem_cons_of_mem p hq))
        refine ⟨?_, ih2, ih3⟩
        rw [ih1]
        simp [hcl]

/-- Claim C5 counterexample: a latched fault followed by a continuous
in-range run whose first scan carries timestamp 0 (reachable when the
32-bit millisecond clock wraps).  The run persists 3001 ms ≥ the default
3000 ms delay, so the claim requires the fault to clear, but timestamp 0 is
the "no run" sentinel for `valid_since_ms`: the run is never anchored at 0
and `sensor_fault` stays latched. -/
theorem claim_C5_counterexample :
    (ptx_scan_run false ptx_oven_default_config (ptx_oven_control_init ptx_boot_state)
        [(1, 0, 0), (1002, 0, 0)]).status.sensor_fault = true ∧
    ptx_out_of_range ptx_oven_default_config 5000 2500 = false ∧
    ptx_oven_default_config.auto_resume_delay_ms ≤ 3001 - 0 ∧
    (ptx_scan_run false ptx_oven_default_config (ptx_oven_control_init ptx_boot_state)
        [(1, 0, 0), (1002, 0, 0), (0, 5000, 2500), (3001, 5000, 2500)]).status.sensor_fault
      = true := by
  norm_num [ptx_scan_run, ptx_oven_control_update, ptx_eval_sensor_faults_with_timing,
    ptx_update_heating, ptx_oven_run_log, ptx_oven_control_init, ptx_boot_state,
    ptx_vref_bad, ptx_signal_bad, ptx_out_of_range, ptx_compute_temperature,
    ptx_read_door_open, ptx_oven_default_config, wsub]

/-- Claim C5 (amended): with `sensor_fault` latched and no valid run being
tracked, a continuous run of in-range scans clears the fault exactly when
it has persisted at least `auto_resume_delay_ms` since the timestamp `t0`
of the scan on which the run began — *provided `t0` is nonzero* (0 is the
"no run" sentinel, see the counterexample) and the configured delay is
positive (every value the range-validated setter accepts is) — and
`valid_since_ms` is reset to 0 at the clearing scan; moreover any single
out-of-range scan while the fault is latched resets the valid-run timer
`valid_since_ms` to 0 and leaves the fault latched, so the wait restarts. -/
theorem claim_C5_amended (flame : Bool) (cfg : ptx_oven_config_t) (s : OvenState)
    (t0 T : ℕ) (v0 g0 : ℚ) (rest : List (ℕ × ℚ × ℚ))
    (hf : s.status.sensor_fault = true)
    (hvs : s.valid_since_ms = 0)
    (ht0 : 0 < t0)
    (hdelay : 0 < cfg.auto_resume_delay_ms)
    (hoor0 : ptx_out_of_range cfg v0 g0 = false)
    (hoorR : ∀ p ∈ rest, ptx_out_of_range cfg p.2.1 p.2.2 = false)
    (hbound : ∀ p ∈ rest, t0 ≤ p.1 ∧ p.1 ≤ T)
    (ht0T : t0 ≤ T)
    (hT : T < t0 + 4294967296)
    (hTat : T = t0 ∨ ∃ p ∈ rest, p.1 = T) :
    (((ptx_scan_run flame cfg s ((t0, v0, g0) :: rest)).status.sensor_fault = false ↔
        cfg.auto_resume_delay_ms ≤ T - t0) ∧
      ((ptx_scan_run flame cfg s ((t0, v0, g0) :: rest)).status.sensor_fault = false →
        (ptx_scan_run flame cfg s ((t0, v0, g0) :: rest)).valid_since_ms = 0)) ∧
    (∀ (s2 : OvenState) (now : ℕ) (v g : ℚ),
      s2.status.sensor_fault = true → ptx_out_of_range cfg v g = true →
      (ptx_oven_control_update flame cfg s2 now v g).valid_since_ms = 0 ∧
      (ptx_oven_control_update flame cfg s2 now v g).status.sensor_fault = true) := by
  constructor
  · simp only [ptx_scan_run]
    have hstep := scan_fault_in_range_latched_step flame cfg s t0 v0 g0 hoor0 hf
    rw [hvs, if_pos rfl, wsub_self] at hstep
    obtain ⟨hc1, hc2⟩ := hstep.2 hdelay
    obtain ⟨ih1, ih2, ih3⟩ := fault_run_in_range_latched flame cfg rest
      (ptx_oven_control_update flame cfg s t0 v0 g0) t0 hc1 hc2 (by omega)
      (fun q hq => ⟨hoorR q hq, (hbound q hq).1, by have := (hbound q hq).2; omega⟩)
    constructor
    · rw [ih1]
      simp only [List.any_eq_true, decide_eq_true_eq]
      constructor
      · rintro ⟨p, hp, hge⟩
        have := (hbound p hp).2
        omega
      · intro hge
        rcases hTat with h | ⟨p, hp, hpT⟩
        · omega
        · exact ⟨p, hp, by omega⟩
    · exact ih3
  · intro s2 now v g hf2 hoor2
    have hstep := scan_fault_oor_step flame cfg s2 now v g hoor2
    refine ⟨hstep.2.2, ?_⟩
    rw [hstep.1, hf2]
    simp

/-- Claim C5 amended witness: with the default 3000 ms delay and a latched
fault, a valid run starting at timestamp 100 and still valid at 3100
(elapsed 3000 ms) clears the fault with `valid_since_ms = 0`; and a single
out-of-range scan while latched resets the valid-run timer to 0. -/
theorem claim_C5_amended_witness :
    (((ptx_scan_run false ptx_oven_default_config ptx_demo_latched_state
          [(100, 5000, 2500), (3100, 5000, 2500)]).status.sensor_fault = false ↔
        ptx_oven_default_config.auto_resume_delay_ms ≤ 3100 - 100) ∧
      ((ptx_scan_run false ptx_oven_default_config ptx_demo_latched_state
          [(100, 5000, 2500), (3100, 5000, 2500)]).status.sensor_fault = false →
        (ptx_scan_run false ptx_oven_default_config ptx_demo_latched_state
          [(100, 5000, 2500), (3100, 5000, 2500)]).valid_since_ms = 0)) ∧
    (∀ (s2 : OvenState) (now : ℕ) (v g : ℚ),
      s2.status.sensor_fault = true →
      ptx_out_of_range ptx_oven_default_config v g = true →
      (ptx_oven_control_update false ptx_oven_default_config s2 now v g).valid_since_ms = 0 ∧
      (ptx_oven_control_update false ptx_oven_default_config s2 now v g).status.sensor_fault
        = true) :=
  claim_C5_amended false ptx_oven_default_config ptx_demo_latched_state 100 3100
    5000 2500 [(3100, 5000, 2500)]
    (by norm_num [ptx_demo_latched_state])
    (by norm_num [ptx_demo_latched_state])
    (by norm_num)
    (by norm_num [ptx_oven_default_config])
    (by norm_num [ptx_out_of_range, ptx_vref_bad, ptx_signal_bad, ptx_oven_default_config])
    (by intro p hp; simp at hp; subst hp;
        norm_num [ptx_out_of_range, ptx_vref_bad, ptx_signal_bad, ptx_oven_default_config])
    (by intro p hp; simp at hp; subst hp; omega)
    (by omega) (by omega)
    (Or.inr ⟨(3100, 5000, 2500), by simp, rfl⟩)

theorem heating_igniting_wait (flame : Bool) (cfg : ptx_oven_config_t)
    (s : OvenState) (now : ℕ) (hst : s.status.state = .IGNITING)
    (hdoor : s.status.door_open = false) (hfault : s.status.sensor_fault = false)
    (hlt : wsub now s.ignition_start_ms < cfg.ignition_duration_ms) :
    ptx_update_heating flame cfg s now = s := by
  simp only [ptx_update_heating, hst, hdoor, hfault]
  simp [not_le.mpr hlt]

theorem heating_igniting_success (cfg : ptx_oven_config_t) (s : OvenState)
    (now : ℕ) (hst : s.status.state = .IGNITING)
    (hdoor : s.status.door_open = false) (hfault : s.status.sensor_fault = false)
    (hge : cfg.ignition_duration_ms ≤ wsub now s.ignition_start_ms) :
    ptx_update_heating false cfg s now =
      { s with
          status := { s.status with igniter_on := false, state := .HEATING }
          ignition_attempt := 0 } := by
  simp only [ptx_update_heating, hst, hdoor, hfault]
  simp [hge]

theorem heating_heating_wait (flame : Bool) (cfg : ptx_oven_config_t)
    (s : OvenState) (now : ℕ) (hst : s.status.state = .HEATING)
    (hdoor : s.status.door_open = false) (hfault : s.status.sensor_fault = false)
    (htemp : s.status.temperature_c < cfg.temp_target_c + cfg.temp_delta_c) :
    ptx_update_heating flame cfg s now = s := by
  simp only [ptx_update_heating, hst, hdoor, hfault]
  simp [not_le.mpr htemp]

theorem scan_igniting_wait_step (flame : Bool) (cfg : ptx_oven_config_t)
    (s : OvenState) (now : ℕ) (v g : ℚ) (t0 : ℕ)
    (hst : s.status.state = .IGNITING) (hgas : s.status.gas_on = true)
    (hign : s.status.igniter_on = true) (hdoor : s.status.door_open = false)
    (hfault : s.status.sensor_fault = false) (hstart : s.ignition_start_ms = t0)
    (hoor : ptx_out_of_range cfg v g = false)
    (hle : t0 ≤ now) (hwrap : now < t0 + 4294967296)
    (hdur : now - t0 < cfg.ignition_duration_ms) :
    (ptx_oven_control_update flame cfg s now v g).status.state = .IGNITING ∧
    (ptx_oven_control_update flame cfg s now v g).status.gas_on = true ∧
    (ptx_oven_control_update flame cfg s now v g).status.igniter_on = true ∧
    (ptx_oven_control_update flame cfg s now v g).status.door_open = false ∧
    (ptx_oven_control_update flame cfg s now v g).status.sensor_fault = false ∧
    (ptx_oven_control_update flame cfg s now v g).ignition_start_ms = t0 := by
  rw [ptx_oven_control_update_decompose]
  obtain ⟨hmst, hmg, hmi, hmd, hmf, hmo, hmv, hmt, hmig, hmp, hma, hmta⟩ :=
    ptx_scan_mid_fields cfg s now v g
  obtain ⟨hf1, -, -⟩ := eval_faults_in_range_not_latched cfg s now v g hoor hfault
  have hw := heating_igniting_wait flame cfg (ptx_scan_mid cfg s now v g) now
    (hmst.trans hst) (hmd.trans hdoor) (hmf.trans hf1)
    (by rw [hmig, hstart, wsub_eq_sub hle (by omega)]; omega)
  rw [hw]
  have hlog := ptx_oven_run_log_preserves cfg (ptx_scan_mid cfg s now v g) now
  simp only [hlog.1, hlog.2.2.2.1]
  exact ⟨hmst.trans hst, hmg.trans hgas, hmi.trans hign, hmd.trans hdoor,
    hmf.trans hf1, hmig.trans hstart⟩

theorem scan_igniting_success_step (cfg : ptx_oven_config_t)
    (s : OvenState) (now : ℕ) (v g : ℚ) (t0 : ℕ)
    (hst : s.status.state = .IGNITING) (hgas : s.status.gas_on = true)
    (hdoor : s.status.door_open = false)
    (hfault : s.status.sensor_fault = false) (hstart : s.ignition_start_ms = t0)
    (hoor : ptx_out_of_range cfg v g = false)
    (hle : t0 + cfg.ignition_duration_ms ≤ now) (hwrap : now < t0 + 4294967296) :
    (ptx_oven_control_update false cfg s now v g).status.state = .HEATING ∧
    (ptx_oven_control_update false cfg s now v g).status.gas_on = true ∧
    (ptx_oven_control_update false cfg s now v g).status.igniter_on = false ∧
    (ptx_oven_control_update false cfg s now v g).status.door_open = false ∧
    (ptx_oven_control_update false cfg s now v g).status.sensor_fault = false ∧
    (ptx_oven_control_update false cfg s now v g).ignition_attempt = 0 := by
  rw [ptx_oven_control_update_decompose]
  obtain ⟨hmst, hmg, hmi, hmd, hmf, hmo, hmv, hmt, hmig, hmp, hma, hmta⟩ :=
    ptx_scan_mid_fields cfg s now v g
  obtain ⟨hf1, -, -⟩ := eval_faults_in_range_not_latched cfg s now v g hoor hfault
  have hw := heating_igniting_success cfg (ptx_scan_mid cfg s now v g) now
    (hmst.trans hst) (hmd.trans hdoor) (hmf.trans hf1)
    (by rw [hmig, hstart, wsub_eq_sub (by omega) (by omega)]; omega)
  rw [hw]
  have hlog := ptx_oven_run_log_preserves cfg
    { ptx_scan_mid cfg s now v g with
        status := { (ptx_scan_mid cfg s now v g).status with
          igniter_on := false
          state := .HEATING }
        ignition_attempt := 0 } now
  simp only [hlog.1, hlog.2.2.2.2.2.1]
  simp [hmg.trans hgas, hmd.trans hdoor, hmf.trans hf1]

theorem scan_heating_step (flame : Bool) (cfg : ptx_oven_config_t)
    (s : OvenState) (now : ℕ) (v g : ℚ)
    (hst : s.status.state = .HEATING) (hgas : s.status.gas_on = true)
    (hign : s.status.igniter_on = false) (hdoor : s.status.door_open = false)
    (hfault : s.status.sensor_fault = false)
    (hoor : ptx_out_of_range cfg v g = false)
    (htemp : ptx_compute_temperature v g < cfg.temp_target_c + cfg.temp_delta_c) :
    (ptx_oven_control_update flame cfg s now v g).status.state = .HEATING ∧
    (ptx_oven_control_update flame cfg s now v g).status.gas_on = true ∧
    (ptx_oven_control_update flame cfg s now v g).status.igniter_on = false ∧
    (ptx_oven_control_update flame cfg s now v g).status.door_open = false ∧
    (ptx_oven_control_update flame cfg s now v g).status.sensor_fault = false := by
  rw [ptx_oven_control_update_decompose]
  obtain ⟨hmst, hmg, hmi, hmd, hmf, hmo, hmv, hmt, hmig, hmp, hma, hmta⟩ :=
    ptx_scan_mid_fields cfg s now v g
  obtain ⟨hf1, -, -⟩ := eval_faults_in_range_not_latched cfg s now v g hoor hfault
  have hw := heating_heating_wait flame cfg (ptx_scan_mid cfg s now v g) now
    (hmst.trans hst) (hmd.trans hdoor) (hmf.trans hf1) (by rw [hmt]; exact htemp)
  rw [hw]
  have hlog := ptx_oven_run_log_preserves cfg (ptx_scan_mid cfg s now v g) now
  simp only [hlog.1]
  exact ⟨hmst.trans hst, hmg.trans hgas, hmi.trans hign, hmd.trans hdoor,
    hmf.trans hf1⟩

theorem scan_run_igniting (flame : Bool) (cfg : ptx_oven_config_t) (t0 : ℕ) :
    ∀ (pre : List (ℕ × ℚ × ℚ)) (s : OvenState),
    s.status.state = .IGNITING → s.status.gas_on = true →
    s.status.igniter_on = true → s.status.door_open = false →
    s.status.sensor_fault = false → s.ignition_start_ms = t0 →
    (∀ p ∈ pre, ptx_out_of_range cfg p.2.1 p.2.2 = false ∧
      t0 ≤ p.1 ∧ p.1 < t0 + 4294967296 ∧ p.1 - t0 < cfg.ignition_duration_ms) →
    (ptx_scan_run flame cfg s pre).status.state = .IGNITING ∧
    (ptx_scan_run flame cfg s pre).status.gas_on = true ∧
    (ptx_scan_run flame cfg s pre).status.igniter_on = true ∧
    (ptx_scan_run flame cfg s pre).status.door_open = false ∧
    (ptx_scan_run flame cfg s pre).status.sensor_fault = false ∧
    (ptx_scan_run flame cfg s pre).ignition_start_ms = t0 := by
  intro pre
  induction pre with
  | nil =>
      intro s h1 h2 h3 h4 h5 h6 _
      exact ⟨h1, h2, h3, h4, h5, h6⟩
  | cons p rest ih =>
      intro s h1 h2 h3 h4 h5 h6 hps
      obtain ⟨hoor, hle, hwrap, hdur⟩ := hps p (List.mem_cons_self p rest)
      have hstep := scan_igniting_wait_step flame cfg s p.1 p.2.1 p.2.2 t0
        h1 h2 h3 h4 h5 h6 hoor hle hwrap hdur
      simp only [ptx_scan_run]
      exact ih (ptx_oven_control_update flame cfg s p.1 p.2.1 p.2.2)
        hstep.1 hstep.2.1 hstep.2.2.1 hstep.2.2.2.1 hstep.2.2.2.2.1 hstep.2.2.2.2.2
        (fun q hq => hps q (List.mem_cons_of_mem p hq))

theorem scan_run_heating (flame : Bool) (cfg : ptx_oven_config_t) :
    ∀ (post : List (ℕ × ℚ × ℚ)) (s : OvenState),
    s.status.state = .HEATING → s.status.gas_on = true →
    s.status.igniter_on = false → s.status.door_open = false →
    s.status.sensor_fault = false →
    (∀ p ∈ post, ptx_out_of_range cfg p.2.1 p.2.2 = false ∧
      ptx_compute_temperature p.2.1 p.2.2 < cfg.temp_target_c + cfg.temp_delta_c) →
    (ptx_scan_run flame cfg s post).status.state = .HEATING ∧
    (ptx_scan_run flame cfg s post).status.gas_on = true ∧
    (ptx_scan_run flame cfg s post).status.igniter_on = false := by
  intro post
  induction post with
  | nil =>
      intro s h1 h2 h3 _ _ _
      exact ⟨h1, h2, h3⟩
  | cons p rest ih =>
      intro s h1 h2 h3 h4 h5 hps
      obtain ⟨hoor, htemp⟩ := hps p (List.mem_cons_self p rest)
      have hstep := scan_heating_step flame cfg s p.1 p.2.1 p.2.2
        h1 h2 h3 h4 h5 hoor htemp
      simp only [ptx_scan_run]
      exact ih (ptx_oven_control_update flame cfg s p.1 p.2.1 p.2.2)
        hstep.1 hstep.2.1 hstep.2.2.1 hstep.2.2.2.1 hstep.2.2.2.2
        (fun q hq => hps q (List.mem_cons_of_mem p hq))

/-- Claim C7: with flame detection disabled and the door/fault override
never firing (door closed, readings in range), from an ignition that
started at `t0`: after any sequence of scans with timestamps in
`[t0, t0 + ignition_duration_ms)` the state is still `IGNITING` with
`gas_on` and `igniter_on` both true (since the scan lists quantified over
are closed under prefixes, this says the igniter is on at *every* such
scan); the first scan at or after `t0 + ignition_duration_ms` turns
`igniter_on` off, keeps `gas_on` true, and moves the state from `IGNITING`
to `HEATING`; and all further scans of the episode (computed temperature
still below the heat-off threshold) keep `igniter_on` false and `gas_on`
true in `HEATING`. -/
theorem claim_C7_ignition_timing (cfg : ptx_oven_config_t) (s : OvenState)
    (t0 : ℕ) (pre : List (ℕ × ℚ × ℚ)) (tB : ℕ) (vB gB : ℚ)
    (post : List (ℕ × ℚ × ℚ))
    (hst : s.status.state = .IGNITING) (hgas : s.status.gas_on = true)
    (hign : s.status.igniter_on = true) (hdoor : s.status.door_open = false)
    (hfault : s.status.sensor_fault = false) (hstart : s.ignition_start_ms = t0)
    (hpre : ∀ p ∈ pre, ptx_out_of_range cfg p.2.1 p.2.2 = false ∧
      t0 ≤ p.1 ∧ p.1 < t0 + cfg.ignition_duration_ms)
    (hdurU : cfg.ignition_duration_ms ≤ 4294967296)
    (htB : t0 + cfg.ignition_duration_ms ≤ tB) (htBwrap : tB < t0 + 4294967296)
    (hoorB : ptx_out_of_range cfg vB gB = false)
    (hpost : ∀ p ∈ post, ptx_out_of_range cfg p.2.1 p.2.2 = false ∧
      ptx_compute_temperature p.2.1 p.2.2 < cfg.temp_target_c + cfg.temp_delta_c) :
    ((ptx_scan_run false cfg s pre).status.state = .IGNITING ∧
      (ptx_scan_run false cfg s pre).status.gas_on = true ∧
      (ptx_scan_run false cfg s pre).status.igniter_on = true) ∧
    ((ptx_oven_control_update false cfg (ptx_scan_run false cfg s pre) tB vB gB).status.state
        = .HEATING ∧
      (ptx_oven_control_update false cfg (ptx_scan_run false cfg s pre) tB vB gB).status.gas_on
        = true ∧
      (ptx_oven_control_update false cfg (ptx_scan_run false cfg s pre) tB vB gB).status.igniter_on
        = false) ∧
    ((ptx_scan_run false cfg
        (ptx_oven_control_update false cfg (ptx_scan_run false cfg s pre) tB vB gB)
        post).status.state = .HEATING ∧
      (ptx_scan_run false cfg
        (ptx_oven_control_update false cfg (ptx_scan_run false cfg s pre) tB vB gB)
        post).status.gas_on = true ∧
      (ptx_scan_run false cfg
        (ptx_oven_control_update false cfg (ptx_scan_run false cfg s pre) tB vB gB)
        post).status.igniter_on = false) := by
  obtain ⟨hA1, hA2, hA3, hA4, hA5, hA6⟩ := scan_run_igniting false cfg t0 pre s
    hst hgas hign hdoor hfault hstart
    (fun p hp => ⟨(hpre p hp).1, (hpre p hp).2.1,
      by have := (hpre p hp).2.2; omega,
      by have := (hpre p hp).2.2; have := (hpre p hp).2.1; omega⟩)
  obtain ⟨hB1, hB2, hB3, hB4, hB5, hB6⟩ := scan_igniting_success_step cfg
    (ptx_scan_run false cfg s pre) tB vB gB t0 hA1 hA2 hA4 hA5 hA6 hoorB htB htBwrap
  obtain ⟨hC1, hC2, hC3⟩ := scan_run_heating false cfg post
    (ptx_oven_control_update false cfg (ptx_scan_run false cfg s pre) tB vB gB)
    hB1 hB2 hB3 hB4 hB5 hpost
  exact ⟨⟨hA1, hA2, hA3⟩, ⟨hB1, hB2, hB3⟩, ⟨hC1, hC2, hC3⟩⟩

/-- Claim C7 witness: the concrete default-configuration episode — ignite
at `t0 = 0`, a mid-window scan at 1000 ms (igniter still on), the
transition scan at exactly 5000 ms (igniter off, gas on, `HEATING`), and a
later scan at 6000 ms with the temperature still below the heat-off
threshold. -/
theorem claim_C7_ignition_timing_witness :
    ((ptx_scan_run false ptx_oven_default_config
        (ptx_oven_control_update false ptx_oven_default_config
          (ptx_oven_control_init ptx_boot_state) 0 5000 500)
        [(1000, 5000, 500)]).status.state = .IGNITING ∧
      (ptx_scan_run false ptx_oven_default_config
        (ptx_oven_control_update false ptx_oven_default_config
          (ptx_oven_control_init ptx_boot_state) 0 5000 500)
        [(1000, 5000, 500)]).status.gas_on = true ∧
      (ptx_scan_run false ptx_oven_default_config
        (ptx_oven_control_update false ptx_oven_default_config
          (ptx_oven_control_init ptx_boot_state) 0 5000 500)
        [(1000, 5000, 500)]).status.igniter_on = true) ∧
    ((ptx_oven_control_update false ptx_oven_default_config
        (ptx_scan_run false ptx_oven_default_config
          (ptx_oven_control_update false ptx_oven_default_config
            (ptx_oven_control_init ptx_boot_state) 0 5000 500)
          [(1000, 5000, 500)]) 5000 5000 500).status.state = .HEATING ∧
      (ptx_oven_control_update false ptx_oven_default_config
        (ptx_scan_run false ptx_oven_default_config
          (ptx_oven_control_update false ptx_oven_default_config
            (ptx_oven_control_init ptx_boot_state) 0 5000 500)
          [(1000, 5000, 500)]) 5000 5000 500).status.gas_on = true ∧
      (ptx_oven_control_update false ptx_oven_default_config
        (ptx_scan_run false ptx_oven_default_config
          (ptx_oven_control_update false ptx_oven_default_config
            (ptx_oven_control_init ptx_boot_state) 0 5000 500)
          [(1000, 5000, 500)]) 5000 5000 500).status.igniter_on = false) ∧
    ((ptx_scan_run false ptx_oven_default_config
        (ptx_oven_control_update false ptx_oven_default_config
          (ptx_scan_run false ptx_oven_default_config
            (ptx_oven_control_update false ptx_oven_default_config
              (ptx_oven_control_init ptx_boot_state) 0 5000 500)
            [(1000, 5000, 500)]) 5000 5000 500)
        [(6000, 5000, 2500)]).status.state = .HEATING ∧
      (ptx_scan_run false ptx_oven_default_config
        (ptx_oven_control_update false ptx_oven_default_config
          (ptx_scan_run false ptx_oven_default_config
            (ptx_oven_control_update false ptx_oven_default_config
              (ptx_oven_control_init ptx_boot_state) 0 5000 500)
            [(1000, 5000, 500)]) 5000 5000 500)
        [(6000, 5000, 2500)]).status.gas_on = true ∧
      (ptx_scan_run false ptx_oven_default_config
        (ptx_oven_control_update false ptx_oven_default_config
          (ptx_scan_run false ptx_oven_default_config
            (ptx_oven_control_update false ptx_oven_default_config
              (ptx_oven_control_init ptx_boot_state) 0 5000 500)
            [(1000, 5000, 500)]) 5000 5000 500)
        [(6000, 5000, 2500)]).status.igniter_on = false) :=
  claim_C7_ignition_timing ptx_oven_default_config
    (ptx_oven_control_update false ptx_oven_default_config
      (ptx_oven_control_init ptx_boot_state) 0 5000 500)
    0 [(1000, 5000, 500)] 5000 5000 500 [(6000, 5000, 2500)]
    (by norm_num [ptx_oven_control_update, ptx_eval_sensor_faults_with_timing,
      ptx_update_heating, ptx_oven_run_log, ptx_oven_control_init, ptx_boot_state,
      ptx_vref_bad, ptx_signal_bad, ptx_compute_temperature, ptx_read_door_open,
      ptx_oven_default_config, wsub])
    (by norm_num [ptx_oven_control_update, ptx_eval_sensor_faults_with_timing,
      ptx_update_heating, ptx_oven_run_log, ptx_oven_control_init, ptx_boot_state,
      ptx_vref_bad, ptx_signal_bad, ptx_compute_temperature, ptx_read_door_open,
      ptx_oven_default_config, wsub])
    (by norm_num [ptx_oven_control_update, ptx_eval_sensor_faults_with_timing,
      ptx_update_heating, ptx_oven_run_log, ptx_oven_control_init, ptx_boot_state,
      ptx_vref_bad, ptx_signal_bad, ptx_compute_temperature, ptx_read_door_open,
      ptx_oven_default_config, wsub])
    (by norm_num [ptx_oven_control_update, ptx_eval_sensor_faults_with_timing,
      ptx_update_heating, ptx_oven_run_log, ptx_oven_control_init, ptx_boot_state,
      ptx_vref_bad, ptx_signal_bad, ptx_compute_temperature, ptx_read_door_open,
      ptx_oven_default_config, wsub])
    (by norm_num [ptx_oven_control_update, ptx_eval_sensor_faults_with_timing,
      ptx_update_heating, ptx_oven_run_log, ptx_oven_control_init, ptx_boot_state,
      ptx_vref_bad, ptx_signal_bad, ptx_compute_temperature, ptx_read_door_open,
      ptx_oven_default_config, wsub])
    (by norm_num [ptx_oven_control_update, ptx_eval_sensor_faults_with_timing,
      ptx_update_heating, ptx_oven_run_log, ptx_oven_control_init, ptx_boot_state,
      ptx_vref_bad, ptx_signal_bad, ptx_compute_temperature, ptx_read_door_open,
      ptx_oven_default_config, wsub])
    (by intro p hp; simp at hp; subst hp;
        norm_num [ptx_out_of_range, ptx_vref_bad, ptx_signal_bad, ptx_oven_default_config])
    (by norm_num [ptx_oven_default_config])
    (by norm_num [ptx_oven_default_config])
    (by norm_num [ptx_oven_default_config])
    (by norm_num [ptx_out_of_range, ptx_vref_bad, ptx_signal_bad, ptx_oven_default_config])
    (by intro p hp; simp at hp; subst hp;
        norm_num [ptx_out_of_range, ptx_vref_bad, ptx_signal_bad,
          ptx_compute_temperature, ptx_oven_default_config])

theorem bubbleCarry_perm : ∀ (t : List ℕ) (a : ℕ), (bubbleCarry a t).Perm (a :: t) := by
  intro t
  induction t with
  | nil => intro a; simp [bubbleCarry]
  | cons b t2 ih =>
      intro a
      simp only [bubbleCarry]
      split_ifs with h
      · exact ((ih a).cons b).trans (List.Perm.swap a b t2)
      · exact (ih b).cons a

theorem bubbleCarry_sorted : ∀ (t : List ℕ) (a : ℕ),
    List.Sorted (· ≤ ·) (a :: t) → bubbleCarry a t = a :: t := by
  intro t
  induction t with
  | nil => intro a _; simp [bubbleCarry]
  | cons b t2 ih =>
      intro a h
      obtain ⟨hab, hbt⟩ := List.sorted_cons.mp h
      simp only [bubbleCarry]
      rw [if_neg (not_lt.mpr (hab b (List.mem_cons_self b t2)))]
      rw [ih b hbt]

theorem bubblePass_of_sorted (l : List ℕ) (h : List.Sorted (· ≤ ·) l) :
    bubblePass l = l := by
  cases l with
  | nil => rfl
  | cons a t => exact bubbleCarry_sorted t a h

theorem bubblePass_perm (l : List ℕ) : (bubblePass l).Perm l := by
  cases l with
  | nil => simp [bubblePass]
  | cons a t => exact bubbleCarry_perm t a

theorem bubbleCarry_decomp : ∀ (t : List ℕ) (a : ℕ) (s2 : List ℕ),
    List.Sorted (· ≤ ·) s2 → (∀ x ∈ a :: t, ∀ y ∈ s2, x ≤ y) →
    ∃ p m, bubbleCarry a (t ++ s2) = p ++ m :: s2 ∧ p.length = t.length ∧
      (∀ x ∈ p, x ≤ m) ∧ (p ++ [m]).Perm (a :: t) := by
  intro t
  induction t with
  | nil =>
      intro a s2 hs2 hdom
      refine ⟨[], a, ?_, rfl, by simp, by simp⟩
      simp only [List.nil_append]
      exact bubbleCarry_sorted s2 a
        (List.sorted_cons.mpr ⟨fun y hy => hdom a (List.mem_cons_self a []) y hy, hs2⟩)
  | cons b t2 ih =>
      intro a s2 hs2 hdom
      simp only [List.cons_append, bubbleCarry]
      split_ifs with h
      · have hdom1 : ∀ x ∈ a :: t2, ∀ y ∈ s2, x ≤ y := by
          intro x hx y hy
          refine hdom x ?_ y hy
          rcases List.mem_cons.mp hx with h' | h'
          · exact h' ▸ List.mem_cons_self a (b :: t2)
          · exact List.mem_cons_of_mem a (List.mem_cons_of_mem b h')
        obtain ⟨p, m, heq, hlen, hpm, hperm⟩ := ih a s2 hs2 hdom1
        have ham : a ≤ m := by
          have ha : a ∈ p ++ [m] := hperm.mem_iff.mpr (List.mem_cons_self a t2)
          rcases List.mem_append.mp ha with h' | h'
          · exact hpm a h'
          · simp at h'
            omega
        refine ⟨b :: p, m, ?_, by simp [hlen], ?_, ?_⟩
        · show b :: bubbleCarry a (t2 ++ s2) = (b :: p) ++ m :: s2
          rw [heq]
          rfl
        · intro x hx
          rcases List.mem_cons.mp hx with h' | h'
          · omega
          · exact hpm x h'
        · exact (hperm.cons b).trans (List.Perm.swap a b t2)
      · have hab : a ≤ b := not_lt.mp h
        have hdom1 : ∀ x ∈ b :: t2, ∀ y ∈ s2, x ≤ y := by
          intro x hx y hy
          refine hdom x ?_ y hy
          exact List.mem_cons_of_mem a hx
        obtain ⟨p, m, heq, hlen, hpm, hperm⟩ := ih b s2 hs2 hdom1
        have hbm : b ≤ m := by
          have hb : b ∈ p ++ [m] := hperm.mem_iff.mpr (List.mem_cons_self b t2)
          rcases List.mem_append.mp hb with h' | h'
          · exact hpm b h'
          · simp at h'
            omega
        refine ⟨a :: p, m, ?_, by simp [hlen], ?_, ?_⟩
        · show a :: bubbleCarry b (t2 ++ s2) = (a :: p) ++ m :: s2
          rw [heq]
          rfl
        · intro x hx
          rcases List.mem_cons.mp hx with h' | h'
          · omega
          · exact hpm x h'
        · exact hperm.cons a

theorem bubbleSortLoop_perm : ∀ (k : ℕ) (l : List ℕ), (bubbleSortLoop k l).Perm l := by
  intro k
  induction k with
  | zero => intro l; simp [bubbleSortLoop]
  | succ k ih =>
      intro l
      simp only [bubbleSortLoop]
      refine (ih _).trans ?_
      refine (List.Perm.append_right _ (bubblePass_perm _)).trans ?_
      rw [List.take_append_drop]

theorem bubbleSortLoop_sorted_aux : ∀ (k : ℕ) (q s2 : List ℕ),
    q.length ≤ k + 1 → List.Sorted (· ≤ ·) s2 →
    (∀ x ∈ q, ∀ y ∈ s2, x ≤ y) →
    List.Sorted (· ≤ ·) (bubbleSortLoop k (q ++ s2)) := by
  intro k
  induction k with
  | zero =>
      intro q s2 hlen hs2 hdom
      simp only [bubbleSortLoop]
      rcases q with _ | ⟨x, _ | ⟨y, t⟩⟩
      · simpa using hs2
      · exact List.sorted_cons.mpr ⟨fun y hy => hdom x (by simp) y hy, hs2⟩
      · simp at hlen
  | succ k ih =>
      intro q s2 hlen hs2 hdom
      simp only [bubbleSortLoop]
      rcases q with _ | ⟨a, t⟩
      · simp only [List.nil_append]
        rw [bubblePass_of_sorted _ (List.Pairwise.sublist (List.take_sublist _ _) hs2),
          List.take_append_drop]
        have := ih [] s2 (by simp) hs2 (by simp)
        simpa using this
      · have hql : (a :: t).length ≤ k + 2 := hlen
        rw [List.take_append_eq_append_take, List.take_all_of_le hql,
          List.drop_append_eq_append_drop, List.drop_eq_nil_of_le hql,
          List.nil_append]
        have hs2a : List.Sorted (· ≤ ·) (s2.take (k + 2 - (a :: t).length)) :=
          List.Pairwise.sublist (List.take_sublist _ _) hs2
        have hdoma : ∀ x ∈ a :: t, ∀ y ∈ s2.take (k + 2 - (a :: t).length), x ≤ y :=
          fun x hx y hy => hdom x hx y (List.take_subset _ _ hy)
        have hpass : bubblePass ((a :: t) ++ s2.take (k + 2 - (a :: t).length)) =
            bubbleCarry a (t ++ s2.take (k + 2 - (a :: t).length)) := rfl
        obtain ⟨p, m, heq, hlen3, hpm, hperm⟩ :=
          bubbleCarry_decomp t a (s2.take (k + 2 - (a :: t).length)) hs2a hdoma
        rw [hpass, heq]
        have harr : (p ++ m :: s2.take (k + 2 - (a :: t).length)) ++
            s2.drop (k + 2 - (a :: t).length) = p ++ m :: s2 := by
          rw [List.append_assoc]
          simp only [List.cons_append]
          rw [List.take_append_drop]
        rw [harr]
        have hm_mem : m ∈ a :: t := hperm.mem_iff.mp (by simp)
        have hms2 : List.Sorted (· ≤ ·) (m :: s2) :=
          List.sorted_cons.mpr ⟨fun y hy => hdom m hm_mem y hy, hs2⟩
        refine ih p (m :: s2) ?_ hms2 ?_
        · simp at hlen
          omega
        · intro x hx y hy
          have hx2 : x ∈ a :: t := hperm.mem_iff.mp (List.mem_append_left _ hx)
          rcases List.mem_cons.mp hy with h' | h'
          · exact h' ▸ hpm x hx
          · exact hdom x hx2 y h'

theorem bubbleSortLoop_sorted (k : ℕ) (l : List ℕ) (h : l.length ≤ k + 1) :
    List.Sorted (· ≤ ·) (bubbleSortLoop k l) := by
  have := bubbleSortLoop_sorted_aux k l [] h (by simp) (by simp)
  simpa using this

theorem bubbleSortLoop_eq_insertionSort (k : ℕ) (l : List ℕ) (h : l.length ≤ k + 1) :
    bubbleSortLoop k l = List.insertionSort (· ≤ ·) l :=
  List.eq_of_perm_of_sorted
    ((bubbleSortLoop_perm k l).trans (List.perm_insertionSort _ l).symm)
    (bubbleSortLoop_sorted k l h)
    (List.sorted_insertionSort _ l)

theorem insertionSort_congr_perm {l l' : List ℕ} (h : l.Perm l') :
    List.insertionSort (· ≤ ·) l = List.insertionSort (· ≤ ·) l' :=
  List.eq_of_perm_of_sorted
    ((List.perm_insertionSort _ l).trans (h.trans (List.perm_insertionSort _ l').symm))
    (List.sorted_insertionSort _ l) (List.sorted_insertionSort _ l')

theorem medianOfWindow_congr_perm {l l' : List ℕ} (h : l.Perm l') :
    medianOfWindow l = medianOfWindow l' := by
  unfold medianOfWindow
  rw [insertionSort_congr_perm h, h.length_eq]

theorem compute_median_eq (buffer : List ℕ) (count : ℕ) (h1 : 0 < count)
    (h2 : count ≤ buffer.length) :
    compute_median buffer count = medianOfWindow (buffer.take count) := by
  unfold compute_median medianOfWindow
  have hlen : (buffer.take count).length = count := by
    simp [List.length_take]
    omega
  rw [bubbleSortLoop_eq_insertionSort (count - 1) (buffer.take count) (by omega)]
  rw [hlen]

theorem take_set_succ : ∀ (l : List ℕ) (n a : ℕ), n < l.length →
    (l.set n a).take (n + 1) = l.take n ++ [a] := by
  intro l
  induction l with
  | nil =>
      intro n a h
      simp at h
  | cons b t ih =>
      intro n a h
      cases n with
      | zero => simp
      | succ m =>
          have hm : m < t.length := by simpa using h
          show (b :: t.set m a).take (m + 2) = (b :: t.take m) ++ [a]
          simp only [List.take_succ_cons, List.cons_append]
          rw [ih m a hm]

theorem take_set_comm (l : List ℕ) (i k a : ℕ) (h : i < k) :
    (l.set i a).take k = (l.take k).set i a := by
  apply List.ext_getElem
  · simp
  · intro j h1 h2
    have hj : j < l.length := by
      simp at h1
      omega
    rw [List.getElem_take, List.getElem_set, List.getElem_set]
    split_ifs with hij
    · rfl
    · rw [List.getElem_take]

theorem nat_mod_two_regions (a W : ℕ) (h0 : 0 < W) (h : a < 2 * W) :
    a % W = if a < W then a else a - W := by
  split_ifs with h1
  · exact Nat.mod_eq_of_lt h1
  · rw [Nat.mod_eq_sub_mod (le_of_not_lt h1)]
    exact Nat.mod_eq_of_lt (by omega)

theorem filter_channel_step (W : ℕ) (hW3 : 3 ≤ W) (hW10 : W ≤ 10)
    (raws : List ℕ) (hist : List ℕ) (hlen : hist.length = 10) (a : ℕ)
    (h1 : raws.length < W → hist.take raws.length = raws)
    (h2 : W ≤ raws.length →
      hist.take W = (raws.drop (raws.length - W)).rotate (W - raws.length % W)) :
    (raws.length + 1 < W →
      (hist.set (raws.length % W) a).take (raws.length + 1) = raws ++ [a]) ∧
    (W ≤ raws.length + 1 →
      (hist.set (raws.length % W) a).take W =
        ((raws ++ [a]).drop (raws.length + 1 - W)).rotate (W - (raws.length + 1) % W)) := by
  set n := raws.length with hn
  constructor
  · intro hlt
    have hnW : n < W := by omega
    rw [Nat.mod_eq_of_lt hnW, take_set_succ hist n a (by omega)]
    rw [h1 hnW]
  · intro hge
    rcases Nat.lt_or_ge n W with hnW | hnW
    · -- n + 1 = W
      have hEq : n + 1 = W := by omega
      have hlen2 : (raws ++ [a]).length = n + 1 := by simp [← hn]
      rw [Nat.mod_eq_of_lt hnW, ← hEq, take_set_succ hist n a (by omega), h1 hnW,
        Nat.sub_self, List.drop_zero, Nat.mod_self, Nat.sub_zero, ← hlen2,
        List.rotate_length]
    · -- W ≤ n: rotation step
      set r := n % W with hr
      have hrW : r < W := Nat.mod_lt _ (by omega)
      have hys : hist.take W = (raws.drop (n - W)).rotate (W - r) := h2 hnW
      set ys := raws.drop (n - W) with hysdef
      have hys_len : ys.length = W := by
        simp [hysdef, ← hn]
        omega
      have hys'1 : (raws ++ [a]).drop (n + 1 - W) = ys.drop 1 ++ [a] := by
        rw [List.drop_append_eq_append_drop]
        have : n + 1 - W - raws.length = 0 := by omega
        rw [this]
        simp only [List.drop_zero]
        congr 1
        rw [hysdef, List.drop_drop]
        congr 1
        omega
      have hr' : (n + 1) % W = (r + 1) % W := by
        rw [hr]
        conv_lhs => rw [Nat.add_mod, Nat.mod_eq_of_lt (show 1 < W by omega)]
      rw [take_set_comm hist r W a hrW, hys, hys'1, hr']
      apply List.ext_getElem
      · simp [hys_len]
        omega
      · intro j hj1 hj2
        have hjW : j < W := by
          simp [hys_len] at hj1
          omega
        have hys'len : (ys.drop 1 ++ [a]).length = W := by
          simp [hys_len]
          omega
        have hr'cases : (r + 1) % W = if r + 1 < W then r + 1 else 0 := by
          split_ifs with hcs
          · exact Nat.mod_eq_of_lt hcs
          · have h' : r + 1 = W := by omega
            rw [h', Nat.mod_self]
        rw [List.getElem_set]
        conv_rhs => rw [List.getElem_rotate]
        simp only [hys'len]
        by_cases hc : r = j
        · rw [if_pos hc]
          have hidx : (j + (W - (r + 1) % W)) % W = W - 1 := by
            rw [hr'cases]
            split_ifs with hc2
            · rw [Nat.mod_eq_of_lt (by omega)]
              omega
            · rw [Nat.sub_zero, Nat.add_mod_right, Nat.mod_eq_of_lt (by omega)]
              omega
          simp only [hidx]
          rw [List.getElem_append_right (by simp [hys_len])]
          simp [hys_len]
        · rw [if_neg hc, List.getElem_rotate]
          simp only [hys_len]
          have hkey : (j + (W - (r + 1) % W)) % W < W - 1 ∧
              (j + (W - r)) % W = (j + (W - (r + 1) % W)) % W + 1 := by
            rw [hr'cases]
            have e2 := nat_mod_two_regions (j + (W - r)) W (by omega) (by omega)
            split_ifs with hc2
            · have e1 := nat_mod_two_regions (j + (W - (r + 1))) W (by omega) (by omega)
              rw [e1, e2]
              split_ifs <;> omega
            · rw [Nat.sub_zero, Nat.add_mod_right, e2, Nat.mod_eq_of_lt (by omega)]
              split_ifs <;> omega
          rw [List.getElem_append_left (by simp [hys_len]; omega)]
          rw [List.getElem_drop]
          have hfin : (j + (W - r)) % W = 1 + ((j + (W - (r + 1) % W)) % W) := by omega
          simp only [hfin]
          rw [List.getElem_drop]
          simp only [hysdef]
          rw [List.getElem_drop]

theorem ptx_sensor_filter_update_fst (s : pti_filter_state_t) (v g : ℕ) :
    (ptx_sensor_filter_update s v g).1 =
      { s with
          vref_history := s.vref_history.set s.history_index v
          signal_history := s.signal_history.set s.history_index g
          history_index := (s.history_index + 1) % s.window_size
          history_count := if s.history_count < s.window_size then s.history_count + 1
                           else s.history_count } := by
  simp only [ptx_sensor_filter_update]
  split_ifs <;> rfl

theorem ptx_filter_run_append : ∀ (xs ys : List (ℕ × ℕ)) (s : pti_filter_state_t),
    ptx_filter_run s (xs ++ ys) = ptx_filter_run (ptx_filter_run s xs) ys := by
  intro xs
  induction xs with
  | nil => intro ys s; rfl
  | cons p rest ih =>
      intro ys s
      simp only [List.cons_append, ptx_filter_run]
      exact ih ys _

theorem filter_inv_init (W : ℕ) (h3 : 3 ≤ W) (h10 : W ≤ 10) :
    FilterInv W [] (ptx_sensor_filter_init W) := by
  have e1 : (if W > 10 then 10 else W) = W := if_neg (by omega)
  have hinit : ptx_sensor_filter_init W =
      { window_size := W, vref_history := List.replicate 10 0,
        signal_history := List.replicate 10 0, history_count := 0,
        history_index := 0 } := by
    simp only [ptx_sensor_filter_init, ptx_sensor_filter_reset, e1]
    rw [if_neg (show ¬W < 3 by omega)]
  rw [hinit]
  unfold FilterInv FilterChannelInv
  refine ⟨rfl, by simp, by simp, by simp, by simp, ⟨?_, ?_⟩, ⟨?_, ?_⟩⟩ <;>
    simp [vsamples, ssamples] <;> omega

theorem filter_inv_step (W : ℕ) (h3 : 3 ≤ W) (h10 : W ≤ 10)
    (xs : List (ℕ × ℕ)) (s : pti_filter_state_t) (hinv : FilterInv W xs s)
    (v g : ℕ) :
    FilterInv W (xs ++ [(v, g)]) (ptx_sensor_filter_update s v g).1 := by
  obtain ⟨hw, hv10, hs10, hidx, hcnt, ⟨hv1, hv2⟩, ⟨hs1, hs2⟩⟩ := hinv
  rw [ptx_sensor_filter_update_fst]
  have hvlen : (vsamples xs).length = xs.length := by simp [vsamples]
  have hslen : (ssamples xs).length = xs.length := by simp [ssamples]
  have hstepv := filter_channel_step W h3 h10 (vsamples xs) s.vref_history hv10 v
    (by rw [hvlen] at hv1 ⊢; exact hv1) (by rw [hvlen] at hv2 ⊢; exact hv2)
  have hsteps := filter_channel_step W h3 h10 (ssamples xs) s.signal_history hs10 g
    (by rw [hslen] at hs1 ⊢; exact hs1) (by rw [hslen] at hs2 ⊢; exact hs2)
  rw [hvlen] at hstepv
  rw [hslen] at hsteps
  have hmod : (xs.length + 1) % W = (xs.length % W + 1) % W := by
    conv_lhs => rw [Nat.add_mod, Nat.mod_eq_of_lt (show 1 < W by omega)]
  refine ⟨hw, ?_, ?_, ?_, ?_, ⟨?_, ?_⟩, ⟨?_, ?_⟩⟩
  · simpa using hv10
  · simpa using hs10
  · simp only
    rw [hidx, hw, List.length_append, List.length_singleton, hmod]
  · simp only
    rw [hcnt, hw, List.length_append, List.length_singleton]
    split_ifs <;> omega
  · simpa [vsamples, hidx, Nat.add_comm] using hstepv.1
  · simpa [vsamples, hidx, Nat.add_comm] using hstepv.2
  · simpa [ssamples, hidx, Nat.add_comm] using hsteps.1
  · simpa [ssamples, hidx, Nat.add_comm] using hsteps.2

theorem filter_run_inv (W : ℕ) (h3 : 3 ≤ W) (h10 : W ≤ 10) (xs : List (ℕ × ℕ)) :
    FilterInv W xs (ptx_filter_run (ptx_sensor_filter_init W) xs) := by
  induction xs using List.reverseRecOn with
  | nil => exact filter_inv_init W h3 h10
  | append_singleton ys p ih =>
      rw [ptx_filter_run_append]
      have := filter_inv_step W h3 h10 ys _ ih p.1 p.2
      simp only [ptx_filter_run]
      simpa using this

theorem ptx_sensor_filter_update_snd_valid (s : pti_filter_state_t) (v g : ℕ)
    (h : (if s.history_count < s.window_size then s.history_count + 1
          else s.history_count) ≥ s.window_size) :
    (ptx_sensor_filter_update s v g).2 =
      { vref_mv := compute_median (s.vref_history.set s.history_index v) s.window_size
        signal_mv := compute_median (s.signal_history.set s.history_index g) s.window_size
        valid := true } := by
  simp only [ptx_sensor_filter_update]
  rw [if_pos h]

/-- Claim C6 (amended): for every window size `W` in `[3, 10]` and every
raw `uint16` input sequence, once `W` or more samples have been supplied
the returned reading is `valid = true` and each channel's value is the
*integer* median of exactly the last `W` raw samples of that channel — the
single central order statistic for odd `W`, and for even `W` the C integer
(truncating) average of the two central order statistics, not their exact
statistical average (see the counterexample). -/
theorem claim_C6_amended (W : ℕ) (h3 : 3 ≤ W) (h10 : W ≤ 10)
    (xs : List (ℕ × ℕ)) (v g : ℕ) (hlen : W ≤ xs.length + 1)
    (hu16 : ∀ p ∈ xs ++ [(v, g)], p.1 < 65536 ∧ p.2 < 65536) :
    (ptx_sensor_filter_update (ptx_filter_run (ptx_sensor_filter_init W) xs) v g).2.valid
      = true ∧
    (ptx_sensor_filter_update (ptx_filter_run (ptx_sensor_filter_init W) xs) v g).2.vref_mv
      = medianOfWindow ((vsamples (xs ++ [(v, g)])).drop (xs.length + 1 - W)) ∧
    (ptx_sensor_filter_update (ptx_filter_run (ptx_sensor_filter_init W) xs) v g).2.signal_mv
      = medianOfWindow ((ssamples (xs ++ [(v, g)])).drop (xs.length + 1 - W)) := by
  obtain ⟨hw, hv10, hs10, hidx, hcnt, -, -⟩ := filter_run_inv W h3 h10 xs
  set s := ptx_filter_run (ptx_sensor_filter_init W) xs with hs
  have hcond : (if s.history_count < s.window_size then s.history_count + 1
      else s.history_count) ≥ s.window_size := by
    rw [hcnt, hw]
    split_ifs <;> omega
  have hsnd := ptx_sensor_filter_update_snd_valid s v g hcond
  have hrun : ptx_filter_run (ptx_sensor_filter_init W) (xs ++ [(v, g)]) =
      (ptx_sensor_filter_update s v g).1 := by
    rw [ptx_filter_run_append, ← hs]
    rfl
  obtain ⟨-, hv10', hs10', -, -, ⟨-, hvfull⟩, ⟨-, hsfull⟩⟩ :=
    filter_run_inv W h3 h10 (xs ++ [(v, g)])
  rw [hrun, ptx_sensor_filter_update_fst] at hvfull hsfull hv10' hs10'
  simp only at hvfull hsfull hv10' hs10'
  have hlen' : (vsamples (xs ++ [(v, g)])).length = xs.length + 1 := by simp [vsamples]
  have hlen'' : (ssamples (xs ++ [(v, g)])).length = xs.length + 1 := by simp [ssamples]
  rw [hlen'] at hvfull
  rw [hlen''] at hsfull
  have hvh := hvfull hlen
  have hsh := hsfull hlen
  refine ⟨by rw [hsnd], ?_, ?_⟩
  · rw [hsnd]
    show compute_median (s.vref_history.set s.history_index v) s.window_size =
      medianOfWindow ((vsamples (xs ++ [(v, g)])).drop (xs.length + 1 - W))
    rw [hw, compute_median_eq _ W (by omega) (by rw [List.length_set, hv10]; omega)]
    rw [hvh]
    exact medianOfWindow_congr_perm (List.rotate_perm _ _)
  · rw [hsnd]
    show compute_median (s.signal_history.set s.history_index g) s.window_size =
      medianOfWindow ((ssamples (xs ++ [(v, g)])).drop (xs.length + 1 - W))
    rw [hw, compute_median_eq _ W (by omega) (by rw [List.length_set, hs10]; omega)]
    rw [hsh]
    exact medianOfWindow_congr_perm (List.rotate_perm _ _)

/-- Claim C6 counterexample: window size 4, raw vref samples 0, 0, 1, 1.
Once the window is full the reading is valid, but it equals 0, the
truncating integer average of the two central order statistics, not the
statistical median 1/2 the claim requires. -/
theorem claim_C6_counterexample :
    (ptx_sensor_filter_update
        (ptx_filter_run (ptx_sensor_filter_init 4) [(0, 0), (0, 0), (1, 1)]) 1 1).2.valid
      = true ∧
    (ptx_sensor_filter_update
        (ptx_filter_run (ptx_sensor_filter_init 4) [(0, 0), (0, 0), (1, 1)]) 1 1).2.vref_mv
      = 0 ∧
    medianSpecQ [0, 0, 1, 1] = 1 / 2 ∧
    ((ptx_sensor_filter_update
        (ptx_filter_run (ptx_sensor_filter_init 4) [(0, 0), (0, 0), (1, 1)]) 1 1).2.vref_mv
        : ℚ) ≠ medianSpecQ [0, 0, 1, 1] := by
  have h1 : (ptx_sensor_filter_update
      (ptx_filter_run (ptx_sensor_filter_init 4) [(0, 0), (0, 0), (1, 1)]) 1 1).2.valid
      = true := by decide
  have h2 : (ptx_sensor_filter_update
      (ptx_filter_run (ptx_sensor_filter_init 4) [(0, 0), (0, 0), (1, 1)]) 1 1).2.vref_mv
      = 0 := by decide
  have h3 : medianSpecQ [0, 0, 1, 1] = 1 / 2 := by
    norm_num [medianSpecQ, List.insertionSort, List.orderedInsert]
  refine ⟨h1, h2, h3, ?_⟩
  rw [h2, h3]
  norm_num

/-- Claim C6 amended witness: window size 5 with the samples 9, 2, 7, 4, 5
on the vref channel and 1, 8, 3, 6, 5 on the signal channel; both medians
are 5. -/
theorem claim_C6_amended_witness :
    ((ptx_sensor_filter_update
        (ptx_filter_run (ptx_sensor_filter_init 5) [(9, 1), (2, 8), (7, 3), (4, 6)])
        5 5).2.valid = true ∧
      (ptx_sensor_filter_update
        (ptx_filter_run (ptx_sensor_filter_init 5) [(9, 1), (2, 8), (7, 3), (4, 6)])
        5 5).2.vref_mv =
        medianOfWindow ((vsamples ([(9, 1), (2, 8), (7, 3), (4, 6)] ++ [(5, 5)])).drop
          ([(9, 1), (2, 8), (7, 3), (4, 6)].length + 1 - 5)) ∧
      (ptx_sensor_filter_update
        (ptx_filter_run (ptx_sensor_filter_init 5) [(9, 1), (2, 8), (7, 3), (4, 6)])
        5 5).2.signal_mv =
        medianOfWindow ((ssamples ([(9, 1), (2, 8), (7, 3), (4, 6)] ++ [(5, 5)])).drop
          ([(9, 1), (2, 8), (7, 3), (4, 6)].length + 1 - 5))) :=
  claim_C6_amended 5 (by norm_num) (by norm_num) [(9, 1), (2, 8), (7, 3), (4, 6)] 5 5
    (by norm_num) (by decide)
